import Mathlib

/-!
Verification development for the orbital-mechanics and scaling core of the
solar-system explorer (files `src/js/utils/AstronomicalCalculations.js`,
`src/js/data/SolarSystemData.js`, `src/js/models/OrbitLine.js`).

JavaScript `number` values along the verified paths are modelled by real
numbers; where the source can produce `NaN`, `Infinity` or `undefined`
(the orbital-velocity path fed from the position record of the central body),
we use an explicit `JsNum` sum type so that NaN propagation is tracked
faithfully.  The ambient wall clock read by `Date.now()` is modelled by an
explicit environment record threaded through every function that reads it.
-/

noncomputable section

open Real

/-- The ambient execution environment: `nowMs` is what `Date.now()` returns,
`consoleLines` models the console log sink (it never feeds back into any
computed value; it is carried to state purity theorems non-trivially). -/
structure Env where
  nowMs : ℝ
  consoleLines : List String

-- Astronomical constants from AstronomicalCalculations.js
def AU_TO_KM : ℝ := 149597870.7
def J2000_EPOCH : ℝ := 2451545.0
def SECONDS_PER_DAY : ℝ := 86400
def DEGREES_TO_RADIANS : ℝ := Real.pi / 180
def RADIANS_TO_DEGREES : ℝ := 180 / Real.pi

/-- `getCurrentJulianDate()`: `Date.now() / 86400000 + 2440587.5`. -/
def getCurrentJulianDate (env : Env) : ℝ :=
  env.nowMs / (SECONDS_PER_DAY * 1000) + 2440587.5

/-- `dateToJulianDate(date)`: a `Date` is modelled by its epoch-milliseconds. -/
def dateToJulianDate (dateMs : ℝ) : ℝ :=
  dateMs / (SECONDS_PER_DAY * 1000) + 2440587.5

/-- `getDaysSinceJ2000(date)`; `date = none` is the `null` default that reads
the current wall clock. -/
def getDaysSinceJ2000 (env : Env) (date : Option ℝ) : ℝ :=
  (match date with
   | some d => dateToJulianDate d
   | none => getCurrentJulianDate env) - J2000_EPOCH

/-- JavaScript `Math.trunc`-style rounding used by the `%` operator:
round toward zero. -/
def jsTrunc (x : ℝ) : ℤ :=
  if 0 ≤ x then ⌊x⌋ else ⌈x⌉

/-- JavaScript remainder `a % n` (sign of the dividend) for finite reals. -/
def jsRem (a n : ℝ) : ℝ :=
  a - n * jsTrunc (a / n)

/-- The normalization in the source, `((m % 360) + 360) % 360`. -/
def normalize0to360 (m : ℝ) : ℝ :=
  jsRem (jsRem m 360 + 360) 360

/-- Orbital elements as stored in the catalog (all fields present). -/
structure OrbitalElements where
  semiMajorAxis : ℝ
  orbitalPeriod : ℝ
  eccentricity : ℝ
  inclination : ℝ
  longitudeOfAscendingNode : ℝ
  longitudeOfPerihelion : ℝ
  meanLongitude : ℝ

/-- `calculateMeanAnomaly(orbitalElements, date)`. -/
def calculateMeanAnomaly (oe : OrbitalElements) (env : Env) (date : Option ℝ) : ℝ :=
  let daysSinceJ2000 := getDaysSinceJ2000 env date
  let meanMotion := 360.0 / oe.orbitalPeriod
  let currentMeanLongitude := oe.meanLongitude + meanMotion * daysSinceJ2000
  let meanAnomaly := currentMeanLongitude - oe.longitudeOfPerihelion
  normalize0to360 meanAnomaly

/-- One pass of the Newton loop of the source with fuel; the update is applied
first, then the `break` test on `|deltaE| < tolerance` as in the source. -/
def keplerIter (ecc M tol : ℝ) : ℕ → ℝ → ℝ
  | 0, E => E
  | n + 1, E =>
    let deltaE := (E - ecc * Real.sin E - M) / (1 - ecc * Real.cos E)
    let E2 := E - deltaE
    if |deltaE| < tol then E2 else keplerIter ecc M tol n E2

/-- `solveKeplersEquation(meanAnomaly, eccentricity)` with the default
tolerance `1e-6` and `maxIterations = 20`; input in degrees, output radians. -/
def solveKeplersEquation (meanAnomaly eccentricity : ℝ) : ℝ :=
  keplerIter eccentricity (meanAnomaly * DEGREES_TO_RADIANS) (1e-6) 20
    (meanAnomaly * DEGREES_TO_RADIANS)

-- ### Normalization facts

theorem jsTrunc_nonneg_eq_floor {x : ℝ} (h : 0 ≤ x) : jsTrunc x = ⌊x⌋ := by
  simp [jsTrunc, h]

theorem jsTrunc_neg_eq_ceil {x : ℝ} (h : ¬ 0 ≤ x) : jsTrunc x = ⌈x⌉ := by
  simp [jsTrunc, h]

theorem jsRem_sub_int (a : ℝ) : ∃ k : ℤ, jsRem a 360 = a - 360 * k :=
  ⟨jsTrunc (a / 360), by unfold jsRem; ring⟩

theorem jsRem_bounds (a : ℝ) : -360 < jsRem a 360 ∧ jsRem a 360 < 360 ∧
    (0 ≤ a → 0 ≤ jsRem a 360) := by
  unfold jsRem
  rcases le_or_lt 0 a with ha | ha
  · have hq : (0:ℝ) ≤ a / 360 := by positivity
    rw [jsTrunc_nonneg_eq_floor hq]
    have h1 := Int.floor_le (a / 360)
    have h2 := Int.lt_floor_add_one (a / 360)
    refine ⟨by nlinarith, by nlinarith, fun _ => by nlinarith⟩
  · have hq : ¬ (0:ℝ) ≤ a / 360 := by
      simp only [not_le]
      exact div_neg_of_neg_of_pos ha (by norm_num)
    rw [jsTrunc_neg_eq_ceil hq]
    have h1 := Int.le_ceil (a / 360)
    have h2 := Int.ceil_lt_add_one (a / 360)
    exact ⟨by nlinarith, by nlinarith, fun h0 => absurd h0 (not_le.2 ha)⟩

theorem normalize0to360_bounds (m : ℝ) :
    0 ≤ normalize0to360 m ∧ normalize0to360 m < 360 := by
  unfold normalize0to360
  obtain ⟨hlt, _, _⟩ := jsRem_bounds m
  obtain ⟨_, hub, hnn⟩ := jsRem_bounds (jsRem m 360 + 360)
  exact ⟨hnn (by linarith), hub⟩

theorem normalize0to360_sub_int (m : ℝ) :
    ∃ k : ℤ, normalize0to360 m = m - 360 * k := by
  unfold normalize0to360
  obtain ⟨k1, hk1⟩ := jsRem_sub_int m
  obtain ⟨k2, hk2⟩ := jsRem_sub_int (jsRem m 360 + 360)
  refine ⟨k1 + k2 - 1, ?_⟩
  rw [hk2, hk1]
  push_cast
  ring

/-- On every real input the composite `((m % 360) + 360) % 360` agrees with
mathematical reduction mod 360. -/
theorem normalize0to360_eq (m : ℝ) : normalize0to360 m = m - 360 * ⌊m / 360⌋ := by
  obtain ⟨k, hk⟩ := normalize0to360_sub_int m
  obtain ⟨h0, h1⟩ := normalize0to360_bounds m
  have hfloor : ⌊m / 360⌋ = k := by
    have hm : m / 360 = normalize0to360 m / 360 + (k : ℝ) := by
      rw [hk]; ring
    have hsmall : ⌊normalize0to360 m / 360⌋ = 0 := by
      apply Int.floor_eq_zero_iff.2
      constructor
      · positivity
      · rw [div_lt_one (by norm_num : (0:ℝ) < 360)]; exact h1
    rw [hm, Int.floor_add_int, hsmall, zero_add]
  rw [hk, hfloor]

theorem normalize0to360_add_360 (m : ℝ) :
    normalize0to360 (m + 360) = normalize0to360 m := by
  rw [normalize0to360_eq, normalize0to360_eq]
  have : (m + 360) / 360 = m / 360 + 1 := by ring
  rw [this, Int.floor_add_one]
  push_cast
  ring

theorem normalize0to360_add_int (m : ℝ) (k : ℤ) :
    normalize0to360 (m + 360 * k) = normalize0to360 m := by
  rw [normalize0to360_eq, normalize0to360_eq]
  have : (m + 360 * k) / 360 = m / 360 + k := by
    field_simp
    ring
  rw [this, Int.floor_add_int]
  push_cast
  ring

theorem normalize0to360_of_mem (m : ℝ) (h0 : 0 ≤ m) (h1 : m < 360) :
    normalize0to360 m = m := by
  rw [normalize0to360_eq]
  have : ⌊m / 360⌋ = 0 := by
    apply Int.floor_eq_zero_iff.2
    refine ⟨by positivity, ?_⟩
    rw [div_lt_one (by norm_num : (0:ℝ) < 360)]; exact h1
  rw [this]
  norm_num

-- ### Newton convergence machinery for the Kepler solver

/-- The Kepler residual in radians: the quantity the solver drives to zero. -/
def keplerF (ecc M E : ℝ) : ℝ := E - ecc * Real.sin E - M

theorem abs_sin_le_abs_self (t : ℝ) : |Real.sin t| ≤ |t| := by
  rcases eq_or_ne t 0 with rfl | h
  · simp
  · exact (Real.abs_sin_lt_abs h).le

theorem abs_cos_sub_cos_le (x y : ℝ) : |Real.cos x - Real.cos y| ≤ |x - y| := by
  rw [Real.cos_sub_cos]
  have h1 : |Real.sin ((x + y) / 2)| ≤ 1 := Real.abs_sin_le_one _
  have h2 : |Real.sin ((x - y) / 2)| ≤ |(x - y) / 2| := abs_sin_le_abs_self _
  have habs : |(-2) * Real.sin ((x + y) / 2) * Real.sin ((x - y) / 2)|
      = 2 * (|Real.sin ((x + y) / 2)| * |Real.sin ((x - y) / 2)|) := by
    rw [abs_mul, abs_mul]
    norm_num [mul_assoc]
  rw [habs]
  have hhalf : |(x - y) / 2| = |x - y| / 2 := by
    rw [abs_div]
    norm_num
  nlinarith [abs_nonneg (Real.sin ((x + y) / 2)), abs_nonneg (Real.sin ((x - y) / 2)),
    abs_nonneg ((x - y) / 2), mul_le_mul h1 h2 (abs_nonneg _) zero_le_one]

/-- Second-order Taylor bound for `sin` used in the Newton step estimate. -/
theorem sin_taylor2 (a h : ℝ) :
    |Real.sin a - Real.sin (a - h) - h * Real.cos a| ≤ h ^ 2 := by
  have hint1 : Real.sin a - Real.sin (a - h) = ∫ t in (a - h)..a, Real.cos t := by
    rw [integral_cos]
  have hint2 : h * Real.cos a = ∫ t in (a - h)..a, Real.cos a := by
    rw [intervalIntegral.integral_const, smul_eq_mul]
    ring
  have hsub : Real.sin a - Real.sin (a - h) - h * Real.cos a
      = ∫ t in (a - h)..a, (Real.cos t - Real.cos a) := by
    rw [intervalIntegral.integral_sub
      (Continuous.intervalIntegrable Real.continuous_cos _ _)
      (intervalIntegrable_const), ← hint1, ← hint2]
  rw [hsub]
  have hb : ∀ t ∈ Set.uIoc (a - h) a, ‖Real.cos t - Real.cos a‖ ≤ |h| := by
    intro t ht
    rw [Real.norm_eq_abs]
    refine le_trans (abs_cos_sub_cos_le t a) ?_
    rcases Set.mem_uIoc.1 ht with ⟨h1, h2⟩ | ⟨h1, h2⟩
    · refine abs_le.2 ⟨?_, ?_⟩
      · linarith [le_abs_self h]
      · linarith [abs_nonneg h]
    · refine abs_le.2 ⟨?_, ?_⟩
      · linarith [abs_nonneg h]
      · linarith [neg_abs_le h]
  have hmain := intervalIntegral.norm_integral_le_of_norm_le_const hb
  rw [Real.norm_eq_abs] at hmain
  calc |∫ t in (a - h)..a, (Real.cos t - Real.cos a)|
      ≤ |h| * |a - (a - h)| := hmain
    _ = h ^ 2 := by
        rw [show a - (a - h) = h by ring, abs_mul_abs_self, sq]

theorem kepler_denom_lower (ecc E : ℝ) (h0 : 0 ≤ ecc) (h1 : ecc ≤ 1/4) :
    (3:ℝ)/4 ≤ 1 - ecc * Real.cos E := by
  nlinarith [Real.cos_le_one E, Real.neg_one_le_cos E]

/-- One Newton update shrinks the Kepler residual quadratically. -/
theorem kepler_newton_step (ecc M E : ℝ) (h0 : 0 ≤ ecc) (h1 : ecc ≤ 1/4) :
    |keplerF ecc M (E - (E - ecc * Real.sin E - M) / (1 - ecc * Real.cos E))| ≤
      ecc * ((E - ecc * Real.sin E - M) / (1 - ecc * Real.cos E)) ^ 2 := by
  set d := (E - ecc * Real.sin E - M) / (1 - ecc * Real.cos E) with hd
  have hden := kepler_denom_lower ecc E h0 h1
  have hden0 : (1 - ecc * Real.cos E) ≠ 0 := by linarith
  have hF : E - ecc * Real.sin E - M = d * (1 - ecc * Real.cos E) := by
    rw [hd, div_mul_cancel₀ _ hden0]
  have hkey : keplerF ecc M (E - d)
      = ecc * (Real.sin E - Real.sin (E - d) - d * Real.cos E) := by
    unfold keplerF
    linear_combination hF
  rw [hkey, abs_mul, abs_of_nonneg h0]
  exact mul_le_mul_of_nonneg_left (sin_taylor2 E d) h0

/-- The loop either breaks with a tiny residual or contracts it by 1/9 each
pass. -/
theorem keplerIter_residual (ecc M : ℝ) (h0 : 0 ≤ ecc) (h1 : ecc ≤ 1/4) :
    ∀ (n : ℕ) (E r : ℝ), |keplerF ecc M E| ≤ r → r ≤ 1/4 →
      |keplerF ecc M (keplerIter ecc M (1e-6) n E)| ≤
        max (2.5e-13) ((1/9)^n * r) := by
  intro n
  induction n with
  | zero =>
    intro E r hE hr
    refine le_trans hE (le_trans ?_ (le_max_right _ _))
    norm_num
  | succ n ih =>
    intro E r hE hr
    have hden := kepler_denom_lower ecc M h0 h1
    have hdenE := kepler_denom_lower ecc E h0 h1
    have hden0 : (0:ℝ) < 1 - ecc * Real.cos E := by linarith
    set d := (E - ecc * Real.sin E - M) / (1 - ecc * Real.cos E) with hd
    have hstep := kepler_newton_step ecc M E h0 h1
    rw [← hd] at hstep
    have hdF : |d| ≤ (4/3) * |keplerF ecc M E| := by
      rw [hd, abs_div, abs_of_pos hden0]
      rw [div_le_iff₀ hden0]
      have hFeq : |E - ecc * Real.sin E - M| = |keplerF ecc M E| := rfl
      have h43 : (1:ℝ) ≤ (4/3) * (1 - ecc * Real.cos E) := by linarith
      nlinarith [abs_nonneg (keplerF ecc M E), hFeq]
    have hcontr : |keplerF ecc M (E - d)| ≤ (1/9) * r := by
      have hd2 : d ^ 2 ≤ ((4/3) * r) ^ 2 := by
        have h1' : |d| ≤ (4/3) * r := le_trans hdF (by nlinarith [abs_nonneg (keplerF ecc M E)])
        nlinarith [abs_nonneg d, sq_abs d, le_abs_self d, neg_abs_le d]
      have hr0 : 0 ≤ r := le_trans (abs_nonneg _) hE
      calc |keplerF ecc M (E - d)| ≤ ecc * d ^ 2 := hstep
        _ ≤ (1/4) * ((4/3) * r) ^ 2 := by nlinarith [sq_nonneg d]
        _ = (4/9) * r * r := by ring
        _ ≤ (4/9) * r * (1/4) := by nlinarith
        _ = (1/9) * r := by ring
    simp only [keplerIter]
    split_ifs with hbr
    · -- loop breaks: the applied step was below tolerance
      have : |keplerF ecc M (E - d)| ≤ ecc * d ^ 2 := hstep
      refine le_trans this (le_trans ?_ (le_max_left _ _))
      have hdd : d ^ 2 ≤ (1e-6) ^ 2 := by
        nlinarith [abs_nonneg d, sq_abs d, le_abs_self d, neg_abs_le d, hbr]
      nlinarith
    · have hnext := ih (E - d) ((1/9) * r) hcontr (by linarith)
      refine le_trans hnext ?_
      apply max_le_max (le_refl _)
      rw [show ((1:ℝ)/9)^(n+1) * r = (1/9)^n * ((1/9) * r) by ring]

/-- Residual bound for the full solver, shared by several claims. -/
theorem kepler_residual_lt (M ecc : ℝ) (h0 : 0 ≤ ecc) (h1 : ecc ≤ 1/4) :
    |keplerF ecc (M * DEGREES_TO_RADIANS) (solveKeplersEquation M ecc)| < 1e-6 := by
  have hinit : |keplerF ecc (M * DEGREES_TO_RADIANS) (M * DEGREES_TO_RADIANS)| ≤ 1/4 := by
    unfold keplerF
    have : M * DEGREES_TO_RADIANS - ecc * Real.sin (M * DEGREES_TO_RADIANS)
        - M * DEGREES_TO_RADIANS = -(ecc * Real.sin (M * DEGREES_TO_RADIANS)) := by ring
    rw [this, abs_neg, abs_mul, abs_of_nonneg h0]
    nlinarith [Real.abs_sin_le_one (M * DEGREES_TO_RADIANS), abs_nonneg (Real.sin (M * DEGREES_TO_RADIANS))]
  have := keplerIter_residual ecc (M * DEGREES_TO_RADIANS) h0 h1 20
    (M * DEGREES_TO_RADIANS) (1/4) hinit (le_refl _)
  unfold solveKeplersEquation
  refine lt_of_le_of_lt this ?_
  apply max_lt
  · norm_num
  · norm_num

/-- C1: for every eccentricity `e ∈ [0, 0.25]` and every real mean anomaly `M`
(degrees), `solveKeplersEquation M e` — Newton–Raphson from `E₀ = M_rad` with
at most 20 iterations — returns `E` with `|E - e·sin E - M_rad| < 1e-6`. -/
theorem C1_kepler_solver_converges (M ecc : ℝ) (h0 : 0 ≤ ecc) (h1 : ecc ≤ 0.25) :
    |solveKeplersEquation M ecc - ecc * Real.sin (solveKeplersEquation M ecc)
      - M * DEGREES_TO_RADIANS| < 1e-6 :=
  kepler_residual_lt M ecc h0 (by linarith)

theorem C1_kepler_solver_converges_witness :
    (0:ℝ) ≤ 0 ∧ (0:ℝ) ≤ 0.25 ∧
      |solveKeplersEquation 45 0 - 0 * Real.sin (solveKeplersEquation 45 0)
        - 45 * DEGREES_TO_RADIANS| < 1e-6 :=
  ⟨le_refl 0, by norm_num, C1_kepler_solver_converges 45 0 (le_refl 0) (by norm_num)⟩

-- ### Position pipeline

/-- JavaScript `Math.atan2(y, x)` on finite inputs, via the complex argument. -/
def jsAtan2 (y x : ℝ) : ℝ :=
  Complex.arg (Complex.ofReal x + Complex.ofReal y * Complex.I)

/-- `calculateTrueAnomaly(eccentricAnomaly, eccentricity)`. -/
def calculateTrueAnomaly (eccentricAnomaly eccentricity : ℝ) : ℝ :=
  2 * jsAtan2 (Real.sqrt (1 + eccentricity) * Real.sin (eccentricAnomaly / 2))
    (Real.sqrt (1 - eccentricity) * Real.cos (eccentricAnomaly / 2))

/-- The record returned by `calculateOrbitalPosition`. -/
structure OrbitalPosition where
  x : ℝ
  y : ℝ
  distance : ℝ
  trueAnomaly : ℝ
  eccentricAnomaly : ℝ
  meanAnomaly : ℝ

/-- `calculateOrbitalPosition(orbitalElements, date)`. -/
def calculateOrbitalPosition (oe : OrbitalElements) (env : Env) (date : Option ℝ) :
    OrbitalPosition :=
  let meanAnomaly := calculateMeanAnomaly oe env date
  let eccentricAnomaly := solveKeplersEquation meanAnomaly oe.eccentricity
  let trueAnomaly := calculateTrueAnomaly eccentricAnomaly oe.eccentricity
  let distance := oe.semiMajorAxis * (1 - oe.eccentricity * Real.cos eccentricAnomaly)
  { x := distance * Real.cos trueAnomaly
    y := distance * Real.sin trueAnomaly
    distance := distance
    trueAnomaly := trueAnomaly
    eccentricAnomaly := eccentricAnomaly
    meanAnomaly := meanAnomaly }

structure Vec3 where
  x : ℝ
  y : ℝ
  z : ℝ

/-- `transformToEcliptic(orbitalPos, orbitalElements)`. -/
def transformToEcliptic (orbitalPos : OrbitalPosition) (oe : OrbitalElements) : Vec3 :=
  let inclinationRad := oe.inclination * DEGREES_TO_RADIANS
  let nodeRad := oe.longitudeOfAscendingNode * DEGREES_TO_RADIANS
  let perihelionRad := (oe.longitudeOfPerihelion - oe.longitudeOfAscendingNode) *
    DEGREES_TO_RADIANS
  let xPeri := orbitalPos.x * Real.cos perihelionRad - orbitalPos.y * Real.sin perihelionRad
  let yPeri := orbitalPos.x * Real.sin perihelionRad + orbitalPos.y * Real.cos perihelionRad
  { x := xPeri * Real.cos nodeRad - yPeri * Real.cos inclinationRad * Real.sin nodeRad
    y := xPeri * Real.sin nodeRad + yPeri * Real.cos inclinationRad * Real.cos nodeRad
    z := yPeri * Real.sin inclinationRad }

/-- The record returned by `calculateHeliocentricPosition`; for the central
body the source returns an object carrying only `x`, `y`, `z`, so the derived
fields are `Option`s (`none` models the absent/`undefined` property). -/
structure HelioPosition where
  x : ℝ
  y : ℝ
  z : ℝ
  distance : Option ℝ
  trueAnomaly : Option ℝ
  eccentricAnomaly : Option ℝ
  meanAnomaly : Option ℝ

/-- `calculateHeliocentricPosition(orbitalElements, date)`. -/
def calculateHeliocentricPosition (oe : OrbitalElements) (env : Env) (date : Option ℝ) :
    HelioPosition :=
  if oe.semiMajorAxis = 0 then
    { x := 0, y := 0, z := 0, distance := none, trueAnomaly := none,
      eccentricAnomaly := none, meanAnomaly := none }
  else
    let orbitalPos := calculateOrbitalPosition oe env date
    let eclipticPos := transformToEcliptic orbitalPos oe
    { x := eclipticPos.x, y := eclipticPos.y, z := eclipticPos.z
      distance := some orbitalPos.distance
      trueAnomaly := some (orbitalPos.trueAnomaly * RADIANS_TO_DEGREES)
      eccentricAnomaly := some (orbitalPos.eccentricAnomaly * RADIANS_TO_DEGREES)
      meanAnomaly := some orbitalPos.meanAnomaly }

-- ### A faithful model of IEEE special values on the velocity path

/-- JavaScript number as seen by the orbital-velocity computation: either a
finite real, an infinity, or NaN (the value of `undefined` coerced by
arithmetic). -/
inductive JsNum where
  | nan : JsNum
  | posInf : JsNum
  | negInf : JsNum
  | num : ℝ → JsNum

def JsNum.ofOption : Option ℝ → JsNum
  | none => JsNum.nan
  | some x => JsNum.num x

def jsMul : JsNum → JsNum → JsNum
  | JsNum.nan, _ => JsNum.nan
  | _, JsNum.nan => JsNum.nan
  | JsNum.num a, JsNum.num b => JsNum.num (a * b)
  | JsNum.posInf, JsNum.num b =>
    if b = 0 then JsNum.nan else if 0 < b then JsNum.posInf else JsNum.negInf
  | JsNum.negInf, JsNum.num b =>
    if b = 0 then JsNum.nan else if 0 < b then JsNum.negInf else JsNum.posInf
  | JsNum.num a, JsNum.posInf =>
    if a = 0 then JsNum.nan else if 0 < a then JsNum.posInf else JsNum.negInf
  | JsNum.num a, JsNum.negInf =>
    if a = 0 then JsNum.nan else if 0 < a then JsNum.negInf else JsNum.posInf
  | JsNum.posInf, JsNum.posInf => JsNum.posInf
  | JsNum.posInf, JsNum.negInf => JsNum.negInf
  | JsNum.negInf, JsNum.posInf => JsNum.negInf
  | JsNum.negInf, JsNum.negInf => JsNum.posInf

def jsDiv : JsNum → JsNum → JsNum
  | JsNum.nan, _ => JsNum.nan
  | _, JsNum.nan => JsNum.nan
  | JsNum.num a, JsNum.num b =>
    if b = 0 then
      (if a = 0 then JsNum.nan else if 0 < a then JsNum.posInf else JsNum.negInf)
    else JsNum.num (a / b)
  | JsNum.num _, JsNum.posInf => JsNum.num 0
  | JsNum.num _, JsNum.negInf => JsNum.num 0
  | JsNum.posInf, JsNum.num b => if 0 ≤ b then JsNum.posInf else JsNum.negInf
  | JsNum.negInf, JsNum.num b => if 0 ≤ b then JsNum.negInf else JsNum.posInf
  | JsNum.posInf, JsNum.posInf => JsNum.nan
  | JsNum.posInf, JsNum.negInf => JsNum.nan
  | JsNum.negInf, JsNum.posInf => JsNum.nan
  | JsNum.negInf, JsNum.negInf => JsNum.nan

def jsSub : JsNum → JsNum → JsNum
  | JsNum.nan, _ => JsNum.nan
  | _, JsNum.nan => JsNum.nan
  | JsNum.num a, JsNum.num b => JsNum.num (a - b)
  | JsNum.num _, JsNum.posInf => JsNum.negInf
  | JsNum.num _, JsNum.negInf => JsNum.posInf
  | JsNum.posInf, JsNum.num _ => JsNum.posInf
  | JsNum.negInf, JsNum.num _ => JsNum.negInf
  | JsNum.posInf, JsNum.posInf => JsNum.nan
  | JsNum.posInf, JsNum.negInf => JsNum.posInf
  | JsNum.negInf, JsNum.posInf => JsNum.negInf
  | JsNum.negInf, JsNum.negInf => JsNum.nan

/-- JavaScript `Math.max(0, x)`. -/
def jsMax0 : JsNum → JsNum
  | JsNum.nan => JsNum.nan
  | JsNum.posInf => JsNum.posInf
  | JsNum.negInf => JsNum.num 0
  | JsNum.num a => JsNum.num (max 0 a)

/-- JavaScript `Math.sqrt`. -/
def jsSqrt : JsNum → JsNum
  | JsNum.nan => JsNum.nan
  | JsNum.posInf => JsNum.posInf
  | JsNum.negInf => JsNum.nan
  | JsNum.num a => if a < 0 then JsNum.nan else JsNum.num (Real.sqrt a)

def GM_SUN : ℝ := 1.32712442018e11

/-- `calculateOrbitalVelocity(orbitalElements, currentDistance)` with special
values tracked; `currentDistance` may be the absent `distance` property of the
position record of the central body. -/
def calculateOrbitalVelocityJs (oe : OrbitalElements) (currentDistance : JsNum) : JsNum :=
  let semiMajorAxisKm := jsMul (JsNum.num oe.semiMajorAxis) (JsNum.num AU_TO_KM)
  let currentDistanceKm := jsMul currentDistance (JsNum.num AU_TO_KM)
  let velocitySquared := jsMul (JsNum.num GM_SUN)
    (jsSub (jsDiv (JsNum.num 2) currentDistanceKm) (jsDiv (JsNum.num 1) semiMajorAxisKm))
  jsSqrt (jsMax0 velocitySquared)

/-- The record returned by `calculateAstronomicalInfo`. -/
structure AstroInfo where
  name : String
  position : HelioPosition
  distanceFromSun : Option ℝ
  orbitalVelocity : JsNum
  meanAnomaly : Option ℝ
  trueAnomaly : Option ℝ
  eccentricAnomaly : Option ℝ

/-- `calculateAstronomicalInfo(bodyName, orbitalElements, date)`. -/
def calculateAstronomicalInfo (name : String) (oe : OrbitalElements) (env : Env)
    (date : Option ℝ) : AstroInfo :=
  let position := calculateHeliocentricPosition oe env date
  let velocity := calculateOrbitalVelocityJs oe (JsNum.ofOption position.distance)
  { name := name
    position := position
    distanceFromSun := position.distance
    orbitalVelocity := velocity
    meanAnomaly := position.meanAnomaly
    trueAnomaly := position.trueAnomaly
    eccentricAnomaly := position.eccentricAnomaly }

/-- Catalog orbital fields of the central body (SolarSystemData.js, `sun`). -/
def sunElements : OrbitalElements :=
  { semiMajorAxis := 0, orbitalPeriod := 0, eccentricity := 0, inclination := 0,
    longitudeOfAscendingNode := 0, longitudeOfPerihelion := 0, meanLongitude := 0 }

theorem AU_TO_KM_pos : (0:ℝ) < AU_TO_KM := by norm_num [AU_TO_KM]

/-- On a finite positive distance and a nonzero semi-major axis the velocity
path stays finite and equals the clamped vis-viva expression. -/
theorem velocityJs_num_eq (oe : OrbitalElements) (r : ℝ)
    (ha : oe.semiMajorAxis ≠ 0) (hr : 0 < r) :
    calculateOrbitalVelocityJs oe (JsNum.num r) =
      JsNum.num (Real.sqrt (max 0 (GM_SUN *
        (2 / (r * AU_TO_KM) - 1 / (oe.semiMajorAxis * AU_TO_KM))))) := by
  have hAU := AU_TO_KM_pos
  have h1 : r * AU_TO_KM ≠ 0 := by positivity
  have h2 : oe.semiMajorAxis * AU_TO_KM ≠ 0 := mul_ne_zero ha (ne_of_gt hAU)
  unfold calculateOrbitalVelocityJs
  simp only [jsMul, jsDiv, jsSub, jsMax0, jsSqrt, if_neg h1, if_neg h2]
  rw [if_neg (not_lt.2 (le_max_left 0 _))]

/-- C10: for `semiMajorAxis > 0` and current distance `r > 0`,
`calculateOrbitalVelocity` returns a finite non-negative number; the vis-viva
radicand is clamped at zero before the square root, so a negative radicand
(`r > 2a`) yields `0`, never NaN. -/
theorem C10_velocity_clamped_nonneg (oe : OrbitalElements) (r : ℝ)
    (ha : 0 < oe.semiMajorAxis) (hr : 0 < r) :
    ∃ v : ℝ, calculateOrbitalVelocityJs oe (JsNum.num r) = JsNum.num v ∧ 0 ≤ v ∧
      (GM_SUN * (2 / (r * AU_TO_KM) - 1 / (oe.semiMajorAxis * AU_TO_KM)) < 0 → v = 0) := by
  refine ⟨Real.sqrt (max 0 (GM_SUN *
    (2 / (r * AU_TO_KM) - 1 / (oe.semiMajorAxis * AU_TO_KM)))), ?_, ?_, ?_⟩
  · exact velocityJs_num_eq oe r (ne_of_gt ha) hr
  · exact Real.sqrt_nonneg _
  · intro hneg
    rw [max_eq_left hneg.le, Real.sqrt_zero]

/-- Orbital elements of a body placed outside twice its orbit size, used to
exercise the negative-radicand branch. -/
def hyperbolicProbeElements : OrbitalElements :=
  { semiMajorAxis := 1, orbitalPeriod := 1, eccentricity := 0, inclination := 0,
    longitudeOfAscendingNode := 0, longitudeOfPerihelion := 0, meanLongitude := 0 }

theorem C10_velocity_clamped_nonneg_witness :
    (0:ℝ) < hyperbolicProbeElements.semiMajorAxis ∧ (0:ℝ) < 4 ∧
      ∃ v : ℝ, calculateOrbitalVelocityJs hyperbolicProbeElements (JsNum.num 4) =
          JsNum.num v ∧ 0 ≤ v ∧
        (GM_SUN * (2 / (4 * AU_TO_KM) -
          1 / (hyperbolicProbeElements.semiMajorAxis * AU_TO_KM)) < 0 → v = 0) :=
  ⟨by norm_num [hyperbolicProbeElements], by norm_num,
    C10_velocity_clamped_nonneg hyperbolicProbeElements 4
      (by norm_num [hyperbolicProbeElements]) (by norm_num)⟩

-- ### C2: central-body short-circuit and well-formedness

theorem jsMul_nan_left (x : JsNum) : jsMul JsNum.nan x = JsNum.nan := by cases x <;> rfl

theorem jsMul_nan_right (x : JsNum) : jsMul x JsNum.nan = JsNum.nan := by cases x <;> rfl

theorem jsDiv_nan_right (x : JsNum) : jsDiv x JsNum.nan = JsNum.nan := by cases x <;> rfl

theorem jsSub_nan_left (x : JsNum) : jsSub JsNum.nan x = JsNum.nan := by cases x <;> rfl

/-- An undefined current distance poisons the whole velocity computation. -/
theorem velocityJs_nan (oe : OrbitalElements) :
    calculateOrbitalVelocityJs oe JsNum.nan = JsNum.nan := by
  unfold calculateOrbitalVelocityJs
  simp only [jsMul_nan_left, jsDiv_nan_right, jsSub_nan_left, jsMul_nan_right]
  rfl

theorem sun_position_eval (env : Env) (date : Option ℝ) :
    calculateHeliocentricPosition sunElements env date =
      { x := 0, y := 0, z := 0, distance := none, trueAnomaly := none,
        eccentricAnomaly := none, meanAnomaly := none } := by
  unfold calculateHeliocentricPosition
  rw [if_pos (show sunElements.semiMajorAxis = 0 from rfl)]

theorem sun_info_velocity_nan (env : Env) (date : Option ℝ) :
    (calculateAstronomicalInfo "sun" sunElements env date).orbitalVelocity = JsNum.nan := by
  unfold calculateAstronomicalInfo
  rw [sun_position_eval]
  exact velocityJs_nan sunElements

/-- C2 counterexample: the reported orbital velocity of the central body from
`calculateAstronomicalInfo` is NaN (the velocity computation receives the
absent `distance` property), not zero, and its `distanceFromSun` is absent. -/
theorem C2_counterexample_sun_velocity_nan :
    (calculateAstronomicalInfo "sun" sunElements { nowMs := 0, consoleLines := [] }
        none).orbitalVelocity = JsNum.nan ∧
      JsNum.nan ≠ JsNum.num 0 ∧
      (calculateAstronomicalInfo "sun" sunElements { nowMs := 0, consoleLines := [] }
        none).distanceFromSun = none := by
  refine ⟨sun_info_velocity_nan _ _, fun h => JsNum.noConfusion h, ?_⟩
  unfold calculateAstronomicalInfo
  rw [sun_position_eval]

theorem helio_planet_eval (oe : OrbitalElements) (env : Env) (date : Option ℝ)
    (ha : oe.semiMajorAxis ≠ 0) :
    calculateHeliocentricPosition oe env date =
      { x := (transformToEcliptic (calculateOrbitalPosition oe env date) oe).x
        y := (transformToEcliptic (calculateOrbitalPosition oe env date) oe).y
        z := (transformToEcliptic (calculateOrbitalPosition oe env date) oe).z
        distance := some (calculateOrbitalPosition oe env date).distance
        trueAnomaly := some ((calculateOrbitalPosition oe env date).trueAnomaly *
          RADIANS_TO_DEGREES)
        eccentricAnomaly := some ((calculateOrbitalPosition oe env date).eccentricAnomaly *
          RADIANS_TO_DEGREES)
        meanAnomaly := some (calculateOrbitalPosition oe env date).meanAnomaly } := by
  unfold calculateHeliocentricPosition
  rw [if_neg ha]

theorem orbitalPosition_distance (oe : OrbitalElements) (env : Env) (date : Option ℝ) :
    (calculateOrbitalPosition oe env date).distance =
      oe.semiMajorAxis * (1 - oe.eccentricity *
        Real.cos (solveKeplersEquation (calculateMeanAnomaly oe env date)
          oe.eccentricity)) := rfl

theorem orbital_distance_bounds (oe : OrbitalElements) (env : Env) (date : Option ℝ)
    (ha : 0 < oe.semiMajorAxis) (he0 : 0 ≤ oe.eccentricity) (he1 : oe.eccentricity < 1) :
    oe.semiMajorAxis * (1 - oe.eccentricity) ≤ (calculateOrbitalPosition oe env date).distance ∧
      (calculateOrbitalPosition oe env date).distance ≤
        oe.semiMajorAxis * (1 + oe.eccentricity) := by
  rw [orbitalPosition_distance]
  constructor
  · nlinarith [mul_nonneg (mul_nonneg ha.le he0) (sub_nonneg.2 (Real.cos_le_one
      (solveKeplersEquation (calculateMeanAnomaly oe env date) oe.eccentricity)))]
  · nlinarith [mul_nonneg (mul_nonneg ha.le he0)
      (show (0:ℝ) ≤ 1 + Real.cos (solveKeplersEquation (calculateMeanAnomaly oe env date)
          oe.eccentricity) by
        linarith [Real.neg_one_le_cos
          (solveKeplersEquation (calculateMeanAnomaly oe env date) oe.eccentricity)])]

theorem orbital_distance_pos (oe : OrbitalElements) (env : Env) (date : Option ℝ)
    (ha : 0 < oe.semiMajorAxis) (he0 : 0 ≤ oe.eccentricity) (he1 : oe.eccentricity < 1) :
    0 < (calculateOrbitalPosition oe env date).distance := by
  have h := (orbital_distance_bounds oe env date ha he0 he1).1
  nlinarith

/-- C2 amended: the central-body position short-circuits to the origin, but
its reported orbital velocity through `calculateAstronomicalInfo` is NaN (not
zero) and its distance field is absent; every non-central cataloged body
(`semiMajorAxis > 0`, `0 ≤ e < 1`) gets a present positive distance and a
finite non-negative velocity. -/
theorem C2_central_body_and_wellformedness :
    (∀ (env : Env) (date : Option ℝ),
      calculateHeliocentricPosition sunElements env date =
        { x := 0, y := 0, z := 0, distance := none, trueAnomaly := none,
          eccentricAnomaly := none, meanAnomaly := none }) ∧
    (∀ (env : Env) (date : Option ℝ),
      (calculateAstronomicalInfo "sun" sunElements env date).orbitalVelocity = JsNum.nan) ∧
    (∀ (nm : String) (oe : OrbitalElements) (env : Env) (date : Option ℝ),
      0 < oe.semiMajorAxis → 0 ≤ oe.eccentricity → oe.eccentricity < 1 →
      ∃ r v : ℝ,
        (calculateAstronomicalInfo nm oe env date).distanceFromSun = some r ∧ 0 < r ∧
        (calculateAstronomicalInfo nm oe env date).orbitalVelocity = JsNum.num v ∧ 0 ≤ v ∧
        (calculateAstronomicalInfo nm oe env date).meanAnomaly =
          some (calculateMeanAnomaly oe env date)) := by
  refine ⟨sun_position_eval, sun_info_velocity_nan, ?_⟩
  intro nm oe env date ha he0 he1
  have hne : oe.semiMajorAxis ≠ 0 := ne_of_gt ha
  have hd := orbital_distance_pos oe env date ha he0 he1
  refine ⟨(calculateOrbitalPosition oe env date).distance,
    Real.sqrt (max 0 (GM_SUN * (2 / ((calculateOrbitalPosition oe env date).distance * AU_TO_KM)
      - 1 / (oe.semiMajorAxis * AU_TO_KM)))), ?_, hd, ?_, Real.sqrt_nonneg _, ?_⟩
  · unfold calculateAstronomicalInfo
    rw [helio_planet_eval oe env date hne]
  · unfold calculateAstronomicalInfo
    rw [helio_planet_eval oe env date hne]
    exact velocityJs_num_eq oe _ hne hd
  · unfold calculateAstronomicalInfo
    rw [helio_planet_eval oe env date hne]
    rfl

theorem C2_central_body_and_wellformedness_witness :
    (0:ℝ) < hyperbolicProbeElements.semiMajorAxis ∧
    (0:ℝ) ≤ hyperbolicProbeElements.eccentricity ∧
    hyperbolicProbeElements.eccentricity < 1 ∧
    ∃ r v : ℝ,
      (calculateAstronomicalInfo "probe" hyperbolicProbeElements
        { nowMs := 0, consoleLines := [] } none).distanceFromSun = some r ∧ 0 < r ∧
      (calculateAstronomicalInfo "probe" hyperbolicProbeElements
        { nowMs := 0, consoleLines := [] } none).orbitalVelocity = JsNum.num v ∧ 0 ≤ v ∧
      (calculateAstronomicalInfo "probe" hyperbolicProbeElements
        { nowMs := 0, consoleLines := [] } none).meanAnomaly =
        some (calculateMeanAnomaly hyperbolicProbeElements
          { nowMs := 0, consoleLines := [] } none) :=
  ⟨by norm_num [hyperbolicProbeElements], by norm_num [hyperbolicProbeElements],
    by norm_num [hyperbolicProbeElements],
    C2_central_body_and_wellformedness.2.2 "probe" hyperbolicProbeElements
      { nowMs := 0, consoleLines := [] } none
      (by norm_num [hyperbolicProbeElements]) (by norm_num [hyperbolicProbeElements])
      (by norm_num [hyperbolicProbeElements])⟩

-- ### C7: periodicity through the normalization

theorem meanAnomaly_add_360 (oe : OrbitalElements) (env : Env) (date : Option ℝ) :
    calculateMeanAnomaly { oe with meanLongitude := oe.meanLongitude + 360 } env date
      = calculateMeanAnomaly oe env date := by
  unfold calculateMeanAnomaly
  simp only
  rw [show oe.meanLongitude + 360 + 360.0 / oe.orbitalPeriod * getDaysSinceJ2000 env date
        - oe.longitudeOfPerihelion
      = (oe.meanLongitude + 360.0 / oe.orbitalPeriod * getDaysSinceJ2000 env date
        - oe.longitudeOfPerihelion) + 360 by ring]
  exact normalize0to360_add_360 _

theorem orbitalPosition_add_360 (oe : OrbitalElements) (env : Env) (date : Option ℝ) :
    calculateOrbitalPosition { oe with meanLongitude := oe.meanLongitude + 360 } env date
      = calculateOrbitalPosition oe env date := by
  unfold calculateOrbitalPosition
  rw [meanAnomaly_add_360]

/-- C7: the heliocentric position computed with the raw mean anomaly advanced
by a full 360° (equivalently, `meanLongitude` advanced by 360°) is identical
to the original, because the mean anomaly is normalized into `[0, 360)` before
the Kepler equation is solved; the equality in the real-number model is exact. -/
theorem C7_position_periodic_360 (oe : OrbitalElements) (env : Env) (date : Option ℝ)
    (hT : 0 < oe.orbitalPeriod) :
    calculateHeliocentricPosition { oe with meanLongitude := oe.meanLongitude + 360 }
        env date
      = calculateHeliocentricPosition oe env date := by
  unfold calculateHeliocentricPosition
  simp only [orbitalPosition_add_360]
  rfl

theorem C7_position_periodic_360_witness :
    (0:ℝ) < hyperbolicProbeElements.orbitalPeriod ∧
      calculateHeliocentricPosition
          { hyperbolicProbeElements with
            meanLongitude := hyperbolicProbeElements.meanLongitude + 360 }
          { nowMs := 0, consoleLines := [] } none
        = calculateHeliocentricPosition hyperbolicProbeElements
            { nowMs := 0, consoleLines := [] } none :=
  ⟨by norm_num [hyperbolicProbeElements],
    C7_position_periodic_360 hyperbolicProbeElements { nowMs := 0, consoleLines := [] }
      none (by norm_num [hyperbolicProbeElements])⟩

-- ### OrbitLine: orbit-path sampling (src/js/models/OrbitLine.js)

/-- `OrbitLine.getSegmentCount()` for a configured base segment count
(default 256), a level-of-detail string and the orbit eccentricity. -/
def getSegmentCount (configSegments : ℝ) (lod : String) (ecc : ℝ) : ℝ :=
  let baseSegments : ℝ :=
    if lod = "low" then max 32 (configSegments / 4)
    else if lod = "medium" then max 64 (configSegments / 2)
    else configSegments
  let adjusted : ℝ :=
    if 0.1 < ecc then (⌊baseSegments * (1 + ecc)⌋ : ℝ) else baseSegments
  min adjusted 512

/-- The `i`-th entry pushed by `OrbitLine.calculateOrbitPoints()`:
`tempElements` overrides `meanLongitude` with `ϖ + 360·i/segments`, the
position calculator is invoked with no date (hence reading the wall clock),
and the ecliptic coordinates are axis-swapped and scaled. -/
def orbitPoint (oe : OrbitalElements) (scaleFactor : ℝ) (env : Env) (segments i : ℕ) :
    Vec3 :=
  let meanAnomaly := ((i : ℝ) / (segments : ℝ)) * 360
  let tempElements := { oe with meanLongitude := oe.longitudeOfPerihelion + meanAnomaly }
  let orbitalPos := calculateOrbitalPosition tempElements env none
  let eclipticPos := transformToEcliptic orbitalPos oe
  { x := eclipticPos.x * scaleFactor
    y := eclipticPos.z * scaleFactor
    z := eclipticPos.y * scaleFactor }

/-- `OrbitLine.calculateOrbitPoints()`: points for `i = 0 .. segments`. -/
def calculateOrbitPoints (oe : OrbitalElements) (scaleFactor : ℝ) (env : Env)
    (segments : ℕ) : List Vec3 :=
  (List.range (segments + 1)).map (orbitPoint oe scaleFactor env segments)

/-- The position pipeline as a function of the raw (pre-normalization) mean
anomaly in degrees; `calculateOrbitalPosition` factors through it. -/
def orbitalPositionFromRawAnomaly (oe : OrbitalElements) (rawMeanAnomalyDeg : ℝ) :
    OrbitalPosition :=
  let meanAnomaly := normalize0to360 rawMeanAnomalyDeg
  let eccentricAnomaly := solveKeplersEquation meanAnomaly oe.eccentricity
  let trueAnomaly := calculateTrueAnomaly eccentricAnomaly oe.eccentricity
  let distance := oe.semiMajorAxis * (1 - oe.eccentricity * Real.cos eccentricAnomaly)
  { x := distance * Real.cos trueAnomaly
    y := distance * Real.sin trueAnomaly
    distance := distance
    trueAnomaly := trueAnomaly
    eccentricAnomaly := eccentricAnomaly
    meanAnomaly := meanAnomaly }

theorem calcOP_eq_fromRaw (oe : OrbitalElements) (env : Env) (date : Option ℝ) :
    calculateOrbitalPosition oe env date = orbitalPositionFromRawAnomaly oe
      (oe.meanLongitude + 360.0 / oe.orbitalPeriod * getDaysSinceJ2000 env date
        - oe.longitudeOfPerihelion) := rfl

theorem orbitPoint_eq_fromRaw (oe : OrbitalElements) (scaleFactor : ℝ) (env : Env)
    (segments i : ℕ) :
    orbitPoint oe scaleFactor env segments i =
      { x := (transformToEcliptic (orbitalPositionFromRawAnomaly oe
            (((i : ℝ) / (segments : ℝ)) * 360
              + 360.0 / oe.orbitalPeriod * getDaysSinceJ2000 env none)) oe).x * scaleFactor
        y := (transformToEcliptic (orbitalPositionFromRawAnomaly oe
            (((i : ℝ) / (segments : ℝ)) * 360
              + 360.0 / oe.orbitalPeriod * getDaysSinceJ2000 env none)) oe).z * scaleFactor
        z := (transformToEcliptic (orbitalPositionFromRawAnomaly oe
            (((i : ℝ) / (segments : ℝ)) * 360
              + 360.0 / oe.orbitalPeriod * getDaysSinceJ2000 env none)) oe).y *
              scaleFactor } := by
  simp only [orbitPoint, calcOP_eq_fromRaw]
  rw [show oe.longitudeOfPerihelion + ((i : ℝ) / (segments : ℝ)) * 360
      + 360.0 / oe.orbitalPeriod * getDaysSinceJ2000 env none - oe.longitudeOfPerihelion
      = ((i : ℝ) / (segments : ℝ)) * 360
        + 360.0 / oe.orbitalPeriod * getDaysSinceJ2000 env none from by ring]
  rfl

-- ### Closed-form evaluation of the pipeline on circular orbits

theorem keplerIter_break_immediately (ecc M tol : ℝ) (n : ℕ) (E : ℝ)
    (hres : (E - ecc * Real.sin E - M) / (1 - ecc * Real.cos E) = 0) (htol : 0 < tol) :
    keplerIter ecc M tol (n + 1) E = E := by
  simp only [keplerIter]
  rw [hres, abs_zero, if_pos htol, sub_zero]

/-- With zero eccentricity the solver returns `M` in radians at once. -/
theorem solveKepler_ecc_zero (M : ℝ) :
    solveKeplersEquation M 0 = M * DEGREES_TO_RADIANS := by
  unfold solveKeplersEquation
  rw [show (20:ℕ) = 19 + 1 from rfl]
  apply keplerIter_break_immediately
  · ring
  · norm_num

/-- With zero eccentricity the true anomaly equals the eccentric anomaly
(for `E/2` inside the principal branch of `atan2`). -/
theorem trueAnomaly_ecc_zero (E : ℝ) (h1 : -Real.pi < E / 2) (h2 : E / 2 ≤ Real.pi) :
    calculateTrueAnomaly E 0 = E := by
  unfold calculateTrueAnomaly jsAtan2
  rw [show (1:ℝ) + 0 = 1 by norm_num, show (1:ℝ) - 0 = 1 by norm_num, Real.sqrt_one,
    one_mul, one_mul, Complex.ofReal_cos, Complex.ofReal_sin,
    Complex.arg_cos_add_sin_mul_I ⟨h1, h2⟩]
  ring

/-- C4 amended: the `i`-th orbit-path point is the position pipeline evaluated
at raw mean anomaly `360·i/segments + meanMotion·daysSinceJ2000(now)` — the
substituted value `360·i/segments` is offset by the wall-clock mean-motion
term, because `calculateOrbitalPosition` is invoked with no date and re-adds
the time-derived term to the overridden `meanLongitude`; the sampled points
therefore depend on the current time (they slide along the same ellipse). -/
theorem C4_orbit_point_formula (oe : OrbitalElements) (scaleFactor : ℝ) (env : Env)
    (segments i : ℕ) :
    orbitPoint oe scaleFactor env segments i =
      { x := (transformToEcliptic (orbitalPositionFromRawAnomaly oe
            (((i : ℝ) / (segments : ℝ)) * 360
              + 360.0 / oe.orbitalPeriod * getDaysSinceJ2000 env none)) oe).x * scaleFactor
        y := (transformToEcliptic (orbitalPositionFromRawAnomaly oe
            (((i : ℝ) / (segments : ℝ)) * 360
              + 360.0 / oe.orbitalPeriod * getDaysSinceJ2000 env none)) oe).z * scaleFactor
        z := (transformToEcliptic (orbitalPositionFromRawAnomaly oe
            (((i : ℝ) / (segments : ℝ)) * 360
              + 360.0 / oe.orbitalPeriod * getDaysSinceJ2000 env none)) oe).y *
              scaleFactor } :=
  orbitPoint_eq_fromRaw oe scaleFactor env segments i

/-- An idealized circular equatorial orbit (`a = 1`, `e = 0`, all angles zero,
period 360 days, so the mean motion is one degree per day). -/
def circularTestElements : OrbitalElements :=
  { semiMajorAxis := 1, orbitalPeriod := 360, eccentricity := 0, inclination := 0,
    longitudeOfAscendingNode := 0, longitudeOfPerihelion := 0, meanLongitude := 0 }

/-- Wall clock reading exactly at the J2000 epoch. -/
def envAtEpoch : Env := { nowMs := 946728000000, consoleLines := [] }

/-- Wall clock reading 180 days after the J2000 epoch. -/
def envLater : Env := { nowMs := 962280000000, consoleLines := [] }

theorem daysSince_envAtEpoch : getDaysSinceJ2000 envAtEpoch none = 0 := by
  unfold getDaysSinceJ2000 getCurrentJulianDate envAtEpoch J2000_EPOCH SECONDS_PER_DAY
  norm_num

theorem daysSince_envLater : getDaysSinceJ2000 envLater none = 180 := by
  unfold getDaysSinceJ2000 getCurrentJulianDate envLater J2000_EPOCH SECONDS_PER_DAY
  norm_num

theorem circularPos_eval (raw : ℝ) (h0 : 0 ≤ raw) (h1 : raw < 360) :
    orbitalPositionFromRawAnomaly circularTestElements raw =
      { x := Real.cos (raw * DEGREES_TO_RADIANS)
        y := Real.sin (raw * DEGREES_TO_RADIANS)
        distance := 1
        trueAnomaly := raw * DEGREES_TO_RADIANS
        eccentricAnomaly := raw * DEGREES_TO_RADIANS
        meanAnomaly := raw } := by
  have hE2a : -Real.pi < raw * DEGREES_TO_RADIANS / 2 := by
    unfold DEGREES_TO_RADIANS
    nlinarith [Real.pi_pos]
  have hE2b : raw * DEGREES_TO_RADIANS / 2 ≤ Real.pi := by
    unfold DEGREES_TO_RADIANS
    nlinarith [Real.pi_pos]
  simp only [orbitalPositionFromRawAnomaly, circularTestElements]
  rw [normalize0to360_of_mem raw h0 h1, solveKepler_ecc_zero,
    trueAnomaly_ecc_zero _ hE2a hE2b]
  simp only [OrbitalPosition.mk.injEq, zero_mul, sub_zero, one_mul, mul_one, and_self,
    and_true, true_and]

theorem transform_circular_eval (pos : OrbitalPosition) :
    transformToEcliptic pos circularTestElements = { x := pos.x, y := pos.y, z := 0 } := by
  simp only [transformToEcliptic, circularTestElements, zero_mul, sub_zero,
    Real.cos_zero, Real.sin_zero]
  simp only [Vec3.mk.injEq]
  refine ⟨by ring, by ring, by ring⟩

/-- C4 counterexample: with every declared input identical (elements, scale
factor, segment count, index), the 0-th sampled orbit point differs between
two wall-clock instants, so the sampled orbit path is not independent of the
current time, and at the later instant it is not the position at mean anomaly
`360·0/256 = 0` (which is the point `(1, 0, 0)`). -/
theorem C4_counterexample_time_dependence :
    orbitPoint circularTestElements 1 envAtEpoch 256 0 = { x := 1, y := 0, z := 0 } ∧
      orbitPoint circularTestElements 1 envLater 256 0 = { x := -1, y := 0, z := 0 } ∧
      orbitPoint circularTestElements 1 envAtEpoch 256 0 ≠
        orbitPoint circularTestElements 1 envLater 256 0 := by
  have h1 : orbitPoint circularTestElements 1 envAtEpoch 256 0 =
      { x := 1, y := 0, z := 0 } := by
    rw [orbitPoint_eq_fromRaw, daysSince_envAtEpoch]
    rw [show ((0:ℕ) : ℝ) / ((256:ℕ) : ℝ) * 360
        + 360.0 / circularTestElements.orbitalPeriod * 0 = 0 by norm_num]
    rw [circularPos_eval 0 (le_refl 0) (by norm_num), transform_circular_eval]
    simp only [Vec3.mk.injEq]
    norm_num
  have h2 : orbitPoint circularTestElements 1 envLater 256 0 =
      { x := -1, y := 0, z := 0 } := by
    rw [orbitPoint_eq_fromRaw, daysSince_envLater]
    rw [show ((0:ℕ) : ℝ) / ((256:ℕ) : ℝ) * 360
        + 360.0 / circularTestElements.orbitalPeriod * 180 = 180 by
      norm_num [circularTestElements]]
    rw [circularPos_eval 180 (by norm_num) (by norm_num), transform_circular_eval]
    rw [show (180:ℝ) * DEGREES_TO_RADIANS = Real.pi by unfold DEGREES_TO_RADIANS; ring]
    simp only [Vec3.mk.injEq, Real.cos_pi, Real.sin_pi]
    norm_num
  refine ⟨h1, h2, ?_⟩
  rw [h1, h2]
  intro h
  have hx := congrArg Vec3.x h
  norm_num at hx

-- ### C5: sampled orbit-path distances

/-- Euclidean length of a sampled point (scene units; heliocentric distance
when the scale factor is 1). -/
def vecNorm (v : Vec3) : ℝ := Real.sqrt (v.x ^ 2 + v.y ^ 2 + v.z ^ 2)

/-- The raw mean anomaly actually used for the `i`-th sample. -/
def sampleRaw (oe : OrbitalElements) (env : Env) (segments i : ℕ) : ℝ :=
  ((i : ℝ) / (segments : ℝ)) * 360 + 360.0 / oe.orbitalPeriod * getDaysSinceJ2000 env none

/-- The heliocentric distance of the `i`-th sample. -/
def sampleDistance (oe : OrbitalElements) (env : Env) (segments i : ℕ) : ℝ :=
  (orbitalPositionFromRawAnomaly oe (sampleRaw oe env segments i)).distance

/-- The distances attained by the sampled orbit-path points (scale factor 1). -/
def sampledDistances (oe : OrbitalElements) (env : Env) (segments : ℕ) : List ℝ :=
  (calculateOrbitPoints oe 1 env segments).map vecNorm

/-- The three rotations of `transformToEcliptic` preserve the squared length
of the orbital-plane position. -/
theorem transform_norm_sq (pos : OrbitalPosition) (oe : OrbitalElements) :
    (transformToEcliptic pos oe).x ^ 2 + (transformToEcliptic pos oe).y ^ 2
      + (transformToEcliptic pos oe).z ^ 2 = pos.x ^ 2 + pos.y ^ 2 := by
  simp only [transformToEcliptic]
  have hN := Real.sin_sq_add_cos_sq (oe.longitudeOfAscendingNode * DEGREES_TO_RADIANS)
  have hI := Real.sin_sq_add_cos_sq (oe.inclination * DEGREES_TO_RADIANS)
  have hP := Real.sin_sq_add_cos_sq ((oe.longitudeOfPerihelion -
    oe.longitudeOfAscendingNode) * DEGREES_TO_RADIANS)
  set cP := Real.cos ((oe.longitudeOfPerihelion - oe.longitudeOfAscendingNode) *
    DEGREES_TO_RADIANS)
  set sP := Real.sin ((oe.longitudeOfPerihelion - oe.longitudeOfAscendingNode) *
    DEGREES_TO_RADIANS)
  set cN := Real.cos (oe.longitudeOfAscendingNode * DEGREES_TO_RADIANS)
  set sN := Real.sin (oe.longitudeOfAscendingNode * DEGREES_TO_RADIANS)
  set cI := Real.cos (oe.inclination * DEGREES_TO_RADIANS)
  set sI := Real.sin (oe.inclination * DEGREES_TO_RADIANS)
  linear_combination ((pos.x * cP - pos.y * sP) ^ 2
      + (pos.x * sP + pos.y * cP) ^ 2 * cI ^ 2) * hN
    + (pos.x * sP + pos.y * cP) ^ 2 * hI + (pos.x ^ 2 + pos.y ^ 2) * hP

theorem fromRaw_xy_sq (oe : OrbitalElements) (raw : ℝ) :
    (orbitalPositionFromRawAnomaly oe raw).x ^ 2 + (orbitalPositionFromRawAnomaly oe raw).y ^ 2
      = (orbitalPositionFromRawAnomaly oe raw).distance ^ 2 := by
  simp only [orbitalPositionFromRawAnomaly]
  have h := Real.sin_sq_add_cos_sq (calculateTrueAnomaly
    (solveKeplersEquation (normalize0to360 raw) oe.eccentricity) oe.eccentricity)
  linear_combination (oe.semiMajorAxis * (1 - oe.eccentricity *
    Real.cos (solveKeplersEquation (normalize0to360 raw) oe.eccentricity))) ^ 2 * h

/-- With scale factor 1 the length of the `i`-th sampled point is exactly the
heliocentric distance of that sample. -/
theorem orbitPoint_norm_eq (oe : OrbitalElements) (env : Env) (segments i : ℕ)
    (hd : 0 ≤ sampleDistance oe env segments i) :
    vecNorm (orbitPoint oe 1 env segments i) = sampleDistance oe env segments i := by
  rw [orbitPoint_eq_fromRaw]
  unfold vecNorm
  simp only [mul_one]
  have hT := transform_norm_sq (orbitalPositionFromRawAnomaly oe
    (((i : ℝ) / (segments : ℝ)) * 360 + 360.0 / oe.orbitalPeriod *
      getDaysSinceJ2000 env none)) oe
  have hxy := fromRaw_xy_sq oe (((i : ℝ) / (segments : ℝ)) * 360
    + 360.0 / oe.orbitalPeriod * getDaysSinceJ2000 env none)
  rw [show ∀ a b c : ℝ, a ^ 2 + c ^ 2 + b ^ 2 = a ^ 2 + b ^ 2 + c ^ 2 from
    fun a b c => by ring]
  rw [hT, hxy]
  exact Real.sqrt_sq hd

theorem fromRaw_distance_bounds (oe : OrbitalElements) (raw : ℝ)
    (ha : 0 ≤ oe.semiMajorAxis) (he0 : 0 ≤ oe.eccentricity) (he1 : oe.eccentricity ≤ 1) :
    oe.semiMajorAxis * (1 - oe.eccentricity) ≤ (orbitalPositionFromRawAnomaly oe raw).distance
      ∧ (orbitalPositionFromRawAnomaly oe raw).distance ≤
        oe.semiMajorAxis * (1 + oe.eccentricity) := by
  simp only [orbitalPositionFromRawAnomaly]
  constructor
  · nlinarith [mul_nonneg (mul_nonneg ha he0) (sub_nonneg.2 (Real.cos_le_one
      (solveKeplersEquation (normalize0to360 raw) oe.eccentricity)))]
  · nlinarith [mul_nonneg (mul_nonneg ha he0)
      (show (0:ℝ) ≤ 1 + Real.cos (solveKeplersEquation (normalize0to360 raw)
          oe.eccentricity) by
        linarith [Real.neg_one_le_cos (solveKeplersEquation (normalize0to360 raw)
          oe.eccentricity)])]

/-- If the normalized mean anomaly of a sample lies within `sdeg` degrees of
perihelion, its distance exceeds `a(1-e)` by at most a quadratically small
term. -/
theorem fromRaw_distance_near_peri (oe : OrbitalElements) (raw sdeg : ℝ)
    (ha : 0 ≤ oe.semiMajorAxis) (he0 : 0 ≤ oe.eccentricity)
    (he1 : oe.eccentricity ≤ 1/4) (hs : 0 ≤ sdeg)
    (hM : normalize0to360 raw ≤ sdeg) :
    (orbitalPositionFromRawAnomaly oe raw).distance ≤
      oe.semiMajorAxis * (1 - oe.eccentricity)
        + oe.semiMajorAxis * (oe.eccentricity / 2)
          * ((4/3) * (sdeg * (Real.pi / 180) + 1e-6)) ^ 2 := by
  have hres := kepler_residual_lt (normalize0to360 raw) oe.eccentricity he0 he1
  unfold keplerF at hres
  set e := oe.eccentricity with hedef
  set M := normalize0to360 raw with hMdef
  set E := solveKeplersEquation M e with hEdef
  have hM0 : 0 ≤ M := (normalize0to360_bounds raw).1
  have hpi := Real.pi_pos
  have hD : DEGREES_TO_RADIANS = Real.pi / 180 := rfl
  have hMr0 : 0 ≤ M * DEGREES_TO_RADIANS := by
    rw [hD]; positivity
  have hMr : M * DEGREES_TO_RADIANS ≤ sdeg * (Real.pi / 180) := by
    rw [hD]
    exact mul_le_mul_of_nonneg_right hM (by positivity)
  set B := (4/3) * (sdeg * (Real.pi / 180) + 1e-6) with hB
  have hB0 : (0:ℝ) ≤ B := by rw [hB]; positivity
  have habs := abs_lt.1 hres
  have hEb : |E| ≤ B := by
    rcases le_or_lt 0 E with hE0 | hE0
    · have hsin : e * Real.sin E ≤ e * E :=
        mul_le_mul_of_nonneg_left (Real.sin_le hE0) he0
      rw [abs_of_nonneg hE0, hB]
      nlinarith [habs.2]
    · have hsin : e * E ≤ e * Real.sin E :=
        mul_le_mul_of_nonneg_left (Real.le_sin hE0.le) he0
      rw [abs_of_neg hE0, hB]
      nlinarith [habs.1]
  have hcos : 1 - E ^ 2 / 2 ≤ Real.cos E := Real.one_sub_sq_div_two_le_cos
  have hE2 : E ^ 2 ≤ B ^ 2 := by
    have h1 : -B ≤ E := by linarith [neg_abs_le E]
    have h2 : E ≤ B := le_trans (le_abs_self E) hEb
    nlinarith
  have key1 : oe.semiMajorAxis * e * (1 - Real.cos E) ≤
      oe.semiMajorAxis * e * (E ^ 2 / 2) :=
    mul_le_mul_of_nonneg_left (by linarith) (mul_nonneg ha he0)
  have key2 : oe.semiMajorAxis * e * (E ^ 2 / 2) ≤
      oe.semiMajorAxis * e * (B ^ 2 / 2) :=
    mul_le_mul_of_nonneg_left (by linarith) (mul_nonneg ha he0)
  have hdist : (orbitalPositionFromRawAnomaly oe raw).distance
      = oe.semiMajorAxis * (1 - e * Real.cos E) := rfl
  rw [hdist]
  nlinarith [key1, key2]

/-- Arithmetic core of the aphelion bound: if `u + e·sin u` is within `1e-6`
of a value in `[0, s_r]`, then `-cos u` is close to `-1` quadratically. -/
theorem apo_core (a e sr u Mr : ℝ) (ha : 0 ≤ a) (he0 : 0 ≤ e) (he1 : e ≤ 1/4)
    (hs : 0 ≤ sr) (hMr1 : 0 ≤ Mr) (hMr2 : Mr ≤ sr)
    (hres : |u + e * Real.sin u - Mr| < 1e-6) :
    a * (1 + e) - a * (e / 2) * ((4/3) * (sr + 1e-6)) ^ 2 ≤
      a * (1 - e * (-Real.cos u)) := by
  set B := (4/3) * (sr + 1e-6) with hB
  have hB0 : (0:ℝ) ≤ B := by rw [hB]; positivity
  have habs := abs_lt.1 hres
  have hEb : |u| ≤ B := by
    rcases le_or_lt 0 u with hu0 | hu0
    · have hsinabs := abs_sin_le_abs_self u
      rw [abs_of_nonneg hu0] at hsinabs
      have hsin : -u ≤ Real.sin u := by linarith [(abs_le.1 hsinabs).1]
      have hsin2 : e * (-u) ≤ e * Real.sin u := mul_le_mul_of_nonneg_left hsin he0
      rw [abs_of_nonneg hu0, hB]
      nlinarith [habs.2]
    · have hsinabs := abs_sin_le_abs_self u
      rw [abs_of_neg hu0] at hsinabs
      have hsin : Real.sin u ≤ -u := by linarith [(abs_le.1 hsinabs).2]
      have hsin2 : e * Real.sin u ≤ e * (-u) := mul_le_mul_of_nonneg_left hsin he0
      rw [abs_of_neg hu0, hB]
      nlinarith [habs.1]
  have hcos : 1 - u ^ 2 / 2 ≤ Real.cos u := Real.one_sub_sq_div_two_le_cos
  have hE2 : u ^ 2 ≤ B ^ 2 := by
    have h1 : -B ≤ u := by linarith [neg_abs_le u]
    have h2 : u ≤ B := le_trans (le_abs_self u) hEb
    nlinarith
  have key1 : a * e * (1 - Real.cos u) ≤ a * e * (u ^ 2 / 2) :=
    mul_le_mul_of_nonneg_left (by linarith) (mul_nonneg ha he0)
  have key2 : a * e * (u ^ 2 / 2) ≤ a * e * (B ^ 2 / 2) :=
    mul_le_mul_of_nonneg_left (by linarith) (mul_nonneg ha he0)
  nlinarith [key1, key2]

/-- If the normalized mean anomaly of a sample lies within `sdeg` degrees past
the 180° aphelion mark, its distance falls short of `a(1+e)` by at most a
quadratically small term. -/
theorem fromRaw_distance_near_apo (oe : OrbitalElements) (raw sdeg : ℝ)
    (ha : 0 ≤ oe.semiMajorAxis) (he0 : 0 ≤ oe.eccentricity)
    (he1 : oe.eccentricity ≤ 1/4) (hs : 0 ≤ sdeg)
    (hM1 : 180 ≤ normalize0to360 raw) (hM2 : normalize0to360 raw ≤ 180 + sdeg) :
    oe.semiMajorAxis * (1 + oe.eccentricity)
      - oe.semiMajorAxis * (oe.eccentricity / 2)
        * ((4/3) * (sdeg * (Real.pi / 180) + 1e-6)) ^ 2 ≤
    (orbitalPositionFromRawAnomaly oe raw).distance := by
  have hres := kepler_residual_lt (normalize0to360 raw) oe.eccentricity he0 he1
  unfold keplerF at hres
  revert hres
  generalize hEg : solveKeplersEquation (normalize0to360 raw) oe.eccentricity = E
  intro hres
  have hdist : (orbitalPositionFromRawAnomaly oe raw).distance
      = oe.semiMajorAxis * (1 - oe.eccentricity * Real.cos E) := by
    rw [← hEg]
    rfl
  rw [hdist]
  have hpi := Real.pi_pos
  have hD : DEGREES_TO_RADIANS = Real.pi / 180 := rfl
  have hMr1 : 0 ≤ normalize0to360 raw * DEGREES_TO_RADIANS - Real.pi := by
    rw [hD]; nlinarith
  have hMr2 : normalize0to360 raw * DEGREES_TO_RADIANS - Real.pi
      ≤ sdeg * (Real.pi / 180) := by
    rw [hD]; nlinarith
  have hres2 : |(E - Real.pi) + oe.eccentricity * Real.sin (E - Real.pi)
      - (normalize0to360 raw * DEGREES_TO_RADIANS - Real.pi)| < 1e-6 := by
    rw [Real.sin_sub_pi]
    rw [show E - Real.pi + oe.eccentricity * -Real.sin E
        - (normalize0to360 raw * DEGREES_TO_RADIANS - Real.pi)
        = E - oe.eccentricity * Real.sin E
          - normalize0to360 raw * DEGREES_TO_RADIANS from by ring]
    exact hres
  have hfin := apo_core oe.semiMajorAxis oe.eccentricity (sdeg * (Real.pi / 180))
    (E - Real.pi) (normalize0to360 raw * DEGREES_TO_RADIANS - Real.pi)
    ha he0 he1 (by positivity) hMr1 hMr2 hres2
  rw [show -Real.cos (E - Real.pi) = Real.cos E from by rw [Real.cos_sub_pi]; ring]
    at hfin
  exact hfin

/-- Among the sampled indices `0..n` the normalized mean anomaly of some sample
falls within one spacing `360/n` of perihelion, whatever the clock offset. -/
theorem exists_sample_near_peri (n : ℕ) (hn : 0 < n) (mu : ℝ) :
    ∃ i : ℕ, i ≤ n ∧
      normalize0to360 (((i : ℝ) / (n : ℝ)) * 360 + mu) ≤ 360 / (n : ℝ) := by
  have hnR : (0:ℝ) < (n : ℝ) := Nat.cast_pos.2 hn
  have hn1 : (1:ℝ) ≤ (n : ℝ) := by exact_mod_cast hn
  set s : ℝ := 360 / (n : ℝ) with hs
  have hs0 : 0 < s := by rw [hs]; positivity
  have hsle : s ≤ 360 := by rw [hs]; exact div_le_self (by norm_num) hn1
  set w := normalize0to360 mu with hw
  obtain ⟨hw0, hwlt⟩ := normalize0to360_bounds mu
  obtain ⟨k, hk⟩ := normalize0to360_sub_int mu
  set q : ℤ := ⌊w / s⌋ with hq
  have hq0 : 0 ≤ q := Int.floor_nonneg.2 (by positivity)
  have hqlt : q < (n : ℤ) := by
    rw [hq]
    apply Int.floor_lt.2
    push_cast
    rw [div_lt_iff hs0, hs]
    calc w < 360 := hwlt
      _ = (n : ℝ) * (360 / (n : ℝ)) := by field_simp
  have hqn : q.toNat ≤ n := by omega
  have hcast : ((n - q.toNat : ℕ) : ℝ) = (n : ℝ) - (q : ℝ) := by
    rw [Nat.cast_sub hqn]
    have h2 : ((q.toNat : ℕ) : ℝ) = (q : ℝ) := by
      exact_mod_cast Int.toNat_of_nonneg hq0
    rw [h2]
  have hqs1 : (q : ℝ) * s ≤ w := by
    have h := Int.floor_le (w / s)
    rw [← hq] at h
    calc (q : ℝ) * s ≤ (w / s) * s := by nlinarith
      _ = w := by field_simp
  have hqs2 : w - (q : ℝ) * s < s := by
    have h := Int.lt_floor_add_one (w / s)
    rw [← hq] at h
    have : w < ((q : ℝ) + 1) * s := by
      calc w = (w / s) * s := by field_simp
        _ < ((q : ℝ) + 1) * s := by nlinarith
    linarith [this]
  refine ⟨n - q.toNat, Nat.sub_le _ _, ?_⟩
  have harg : ((n - q.toNat : ℕ) : ℝ) / (n : ℝ) * 360 + mu
      = (w - (q : ℝ) * s) + 360 * ((k + 1 : ℤ) : ℝ) := by
    rw [hcast, hs]
    rw [show mu = w + 360 * (k : ℝ) from by rw [hw, hk]; ring]
    push_cast
    field_simp
    ring
  rw [harg, normalize0to360_add_int, normalize0to360_of_mem _ (by linarith) (by linarith)]
  linarith

/-- Among the sampled indices `0..n` the normalized mean anomaly of some sample
falls within one spacing `360/n` past the 180° aphelion mark. -/
theorem exists_sample_near_apo (n : ℕ) (hn : 4 ≤ n) (mu : ℝ) :
    ∃ j : ℕ, j ≤ n ∧
      180 ≤ normalize0to360 (((j : ℝ) / (n : ℝ)) * 360 + mu) ∧
      normalize0to360 (((j : ℝ) / (n : ℝ)) * 360 + mu) ≤ 180 + 360 / (n : ℝ) := by
  have hn0 : 0 < n := by omega
  have hnR : (0:ℝ) < (n : ℝ) := Nat.cast_pos.2 hn0
  have hn4 : (4:ℝ) ≤ (n : ℝ) := by exact_mod_cast hn
  set s : ℝ := 360 / (n : ℝ) with hs
  have hs0 : 0 < s := by rw [hs]; positivity
  have hsle : s ≤ 90 := by
    rw [hs, div_le_iff hnR]
    nlinarith
  set w := normalize0to360 (180 - mu) with hw
  obtain ⟨hw0, hwlt⟩ := normalize0to360_bounds (180 - mu)
  obtain ⟨m, hm⟩ := normalize0to360_sub_int (180 - mu)
  set q : ℤ := ⌈w / s⌉ with hq
  have hq0 : 0 ≤ q := Int.ceil_nonneg (by positivity)
  have hqle : q ≤ (n : ℤ) := by
    rw [hq]
    apply Int.ceil_le.2
    push_cast
    rw [div_le_iff hs0, hs]
    calc w ≤ 360 := hwlt.le
      _ = (n : ℝ) * (360 / (n : ℝ)) := by field_simp
  have hqn : q.toNat ≤ n := by omega
  have hcast : ((q.toNat : ℕ) : ℝ) = (q : ℝ) := by
    exact_mod_cast Int.toNat_of_nonneg hq0
  have hqs1 : w ≤ (q : ℝ) * s := by
    have h := Int.le_ceil (w / s)
    rw [← hq] at h
    calc w = (w / s) * s := by field_simp
      _ ≤ (q : ℝ) * s := by nlinarith
  have hqs2 : (q : ℝ) * s < w + s := by
    have h := Int.ceil_lt_add_one (w / s)
    rw [← hq] at h
    calc (q : ℝ) * s < (w / s + 1) * s := by nlinarith
      _ = w + s := by field_simp
  refine ⟨q.toNat, hqn, ?_⟩
  have harg : ((q.toNat : ℕ) : ℝ) / (n : ℝ) * 360 + mu
      = (180 + ((q : ℝ) * s - w)) + 360 * ((-m : ℤ) : ℝ) := by
    rw [hcast, hs]
    rw [show mu = 180 - w - 360 * (m : ℝ) from by rw [hw, hm]; ring]
    push_cast
    field_simp
    ring
  rw [harg, normalize0to360_add_int,
    normalize0to360_of_mem _ (by linarith) (by linarith)]
  constructor
  · linarith
  · linarith

theorem sampleDistance_def (oe : OrbitalElements) (env : Env) (segments i : ℕ) :
    sampleDistance oe env segments i =
      (orbitalPositionFromRawAnomaly oe (sampleRaw oe env segments i)).distance := rfl

theorem mem_sampledDistances_iff (oe : OrbitalElements) (env : Env) (segments : ℕ)
    (x : ℝ) :
    x ∈ sampledDistances oe env segments ↔
      ∃ i, i ≤ segments ∧ vecNorm (orbitPoint oe 1 env segments i) = x := by
  simp [sampledDistances, calculateOrbitPoints, List.mem_map, List.mem_range,
    Nat.lt_succ_iff]

theorem sampledDistances_ne_nil (oe : OrbitalElements) (env : Env) (segments : ℕ) :
    sampledDistances oe env segments ≠ [] := by
  simp [sampledDistances, calculateOrbitPoints]

/-- Bounds for the minimum and maximum sampled orbit-path distance: every
sample lies in `[a(1-e), a(1+e)]`, and samples within one spacing of
perihelion/aphelion pin the extrema to within an explicit quadratic error. -/
theorem sampled_min_max_bounds (oe : OrbitalElements) (env : Env) (segments : ℕ)
    (hseg : 64 ≤ segments) (ha : 0 < oe.semiMajorAxis)
    (he0 : 0 ≤ oe.eccentricity) (he1 : oe.eccentricity ≤ 1/4) :
    ∃ m Mx : ℝ,
      (sampledDistances oe env segments).minimum = (m : WithTop ℝ) ∧
      (sampledDistances oe env segments).maximum = (Mx : WithBot ℝ) ∧
      oe.semiMajorAxis * (1 - oe.eccentricity) ≤ m ∧
      m ≤ oe.semiMajorAxis * (1 - oe.eccentricity)
        + oe.semiMajorAxis * (oe.eccentricity / 2)
          * ((4/3) * ((360 / (segments : ℝ)) * (Real.pi / 180) + 1e-6)) ^ 2 ∧
      oe.semiMajorAxis * (1 + oe.eccentricity)
        - oe.semiMajorAxis * (oe.eccentricity / 2)
          * ((4/3) * ((360 / (segments : ℝ)) * (Real.pi / 180) + 1e-6)) ^ 2 ≤ Mx ∧
      Mx ≤ oe.semiMajorAxis * (1 + oe.eccentricity) := by
  have hseg0 : 0 < segments := by omega
  have hsegR : (0:ℝ) < (segments : ℝ) := Nat.cast_pos.2 hseg0
  have he1' : oe.eccentricity ≤ 1 := by linarith
  -- every sampled value equals its sample distance and lies in the band
  have hval : ∀ i : ℕ, vecNorm (orbitPoint oe 1 env segments i)
      = sampleDistance oe env segments i := by
    intro i
    apply orbitPoint_norm_eq
    rw [sampleDistance_def]
    have h := (fromRaw_distance_bounds oe (sampleRaw oe env segments i)
      ha.le he0 he1').1
    nlinarith
  have hband : ∀ i : ℕ, oe.semiMajorAxis * (1 - oe.eccentricity) ≤
      sampleDistance oe env segments i ∧
      sampleDistance oe env segments i ≤ oe.semiMajorAxis * (1 + oe.eccentricity) := by
    intro i
    rw [sampleDistance_def]
    exact fromRaw_distance_bounds oe (sampleRaw oe env segments i) ha.le he0 he1'
  -- a sample close to perihelion
  obtain ⟨ip, hip, hipM⟩ := exists_sample_near_peri segments hseg0
    (360.0 / oe.orbitalPeriod * getDaysSinceJ2000 env none)
  have hperi : sampleDistance oe env segments ip ≤
      oe.semiMajorAxis * (1 - oe.eccentricity)
        + oe.semiMajorAxis * (oe.eccentricity / 2)
          * ((4/3) * ((360 / (segments : ℝ)) * (Real.pi / 180) + 1e-6)) ^ 2 := by
    rw [sampleDistance_def]
    exact fromRaw_distance_near_peri oe (sampleRaw oe env segments ip)
      (360 / (segments : ℝ)) ha.le he0 he1 (by positivity) hipM
  -- a sample close to aphelion
  obtain ⟨ja, hja, hjaM1, hjaM2⟩ := exists_sample_near_apo segments (by omega)
    (360.0 / oe.orbitalPeriod * getDaysSinceJ2000 env none)
  have hapo : oe.semiMajorAxis * (1 + oe.eccentricity)
      - oe.semiMajorAxis * (oe.eccentricity / 2)
        * ((4/3) * ((360 / (segments : ℝ)) * (Real.pi / 180) + 1e-6)) ^ 2 ≤
      sampleDistance oe env segments ja := by
    rw [sampleDistance_def]
    exact fromRaw_distance_near_apo oe (sampleRaw oe env segments ja)
      (360 / (segments : ℝ)) ha.le he0 he1 (by positivity) hjaM1 hjaM2
  -- extract the minimum and maximum
  have hne := sampledDistances_ne_nil oe env segments
  have hmin_ne := List.minimum_ne_top_of_ne_nil hne
  have hmax_ne := List.maximum_ne_bot_of_ne_nil hne
  obtain ⟨m, hm⟩ := Option.ne_none_iff_exists.1 hmin_ne
  obtain ⟨Mx, hMx⟩ := Option.ne_none_iff_exists.1 hmax_ne
  obtain ⟨hm_mem, hm_le⟩ := List.minimum_eq_coe_iff.1 hm.symm
  obtain ⟨hMx_mem, hMx_ge⟩ := List.maximum_eq_coe_iff.1 hMx.symm
  refine ⟨m, Mx, hm.symm, hMx.symm, ?_, ?_, ?_, ?_⟩
  · obtain ⟨i, _, hi⟩ := (mem_sampledDistances_iff oe env segments m).1 hm_mem
    rw [← hi, hval i]
    exact (hband i).1
  · refine le_trans (hm_le _ ?_) hperi
    rw [mem_sampledDistances_iff]
    exact ⟨ip, hip, hval ip⟩
  · refine le_trans hapo (hMx_ge _ ?_)
    rw [mem_sampledDistances_iff]
    exact ⟨ja, hja, hval ja⟩
  · obtain ⟨i, _, hi⟩ := (mem_sampledDistances_iff oe env segments Mx).1 hMx_mem
    rw [← hi, hval i]
    exact (hband i).2

/-- The quadratic sampling error is below one percent of either apsis
distance whenever the anomaly spacing is at most `0.0982` radians. -/
theorem sampling_error_below_pct (a e sr : ℝ) (ha : 0 < a) (he0 : 0 ≤ e)
    (he1 : e ≤ 1/4) (hsr0 : 0 ≤ sr) (hsr : sr ≤ 0.0982) :
    a * (e / 2) * ((4/3) * (sr + 1e-6)) ^ 2 ≤ 0.01 * (a * (1 - e)) ∧
    a * (e / 2) * ((4/3) * (sr + 1e-6)) ^ 2 ≤ 0.01 * (a * (1 + e)) := by
  have hq0 : (0:ℝ) ≤ (4/3) * (sr + 1e-6) := by positivity
  have hq : (4/3) * (sr + 1e-6) ≤ 0.131 := by nlinarith
  have hq2 : ((4/3) * (sr + 1e-6)) ^ 2 ≤ 0.0172 := by nlinarith
  have h1 : e * ((4/3) * (sr + 1e-6)) ^ 2 ≤ (1/4) * 0.0172 :=
    mul_le_mul he1 hq2 (sq_nonneg _) (by norm_num)
  have h2 : a * (e * ((4/3) * (sr + 1e-6)) ^ 2) ≤ a * ((1/4) * 0.0172) :=
    mul_le_mul_of_nonneg_left h1 ha.le
  have h3 : a * e ≤ a * (1/4) := mul_le_mul_of_nonneg_left he1 ha.le
  have h4 : 0 ≤ a * e := mul_nonneg ha.le he0
  constructor
  · nlinarith
  · nlinarith

theorem mars_sampling_error_bound :
    (1.52366231:ℝ) * (0.09341233 / 2)
      * ((4/3) * ((360 / (256:ℝ)) * (Real.pi / 180) + 1e-6)) ^ 2 ≤ 0.00008 := by
  have hpi := Real.pi_lt_d4
  have hpi0 := Real.pi_gt_three
  have ht : (360 / (256:ℝ)) * (Real.pi / 180) + 1e-6 ≤ 0.024546 := by nlinarith
  have ht0 : (0:ℝ) ≤ (360 / (256:ℝ)) * (Real.pi / 180) + 1e-6 := by nlinarith
  have hq : (4/3) * ((360 / (256:ℝ)) * (Real.pi / 180) + 1e-6) ≤ 0.032728 := by
    nlinarith
  have hq0 : (0:ℝ) ≤ (4/3) * ((360 / (256:ℝ)) * (Real.pi / 180) + 1e-6) := by
    nlinarith
  have hq2 : ((4/3) * ((360 / (256:ℝ)) * (Real.pi / 180) + 1e-6)) ^ 2
      ≤ 0.00107113 := by nlinarith
  nlinarith

theorem mars_min_close (m : ℝ)
    (h1 : (1.52366231:ℝ) * (1 - 0.09341233) ≤ m)
    (h2 : m ≤ 1.52366231 * (1 - 0.09341233) + 1.52366231 * (0.09341233 / 2)
      * ((4/3) * ((360 / (256:ℝ)) * (Real.pi / 180) + 1e-6)) ^ 2) :
    |m - 1.382| ≤ 0.001 := by
  have hB := mars_sampling_error_bound
  apply abs_le.2
  constructor
  · nlinarith
  · nlinarith

theorem mars_max_close (Mx : ℝ)
    (h3 : (1.52366231:ℝ) * (1 + 0.09341233) - 1.52366231 * (0.09341233 / 2)
      * ((4/3) * ((360 / (256:ℝ)) * (Real.pi / 180) + 1e-6)) ^ 2 ≤ Mx)
    (h4 : Mx ≤ (1.52366231:ℝ) * (1 + 0.09341233)) :
    |Mx - 1.666| ≤ 0.001 := by
  have hB := mars_sampling_error_bound
  apply abs_le.2
  constructor
  · nlinarith
  · nlinarith

/-- The Mars catalog record (SolarSystemData.js). -/
def marsElements : OrbitalElements :=
  { semiMajorAxis := 1.52366231, orbitalPeriod := 686.980, eccentricity := 0.09341233,
    inclination := 1.85061, longitudeOfAscendingNode := 49.57854,
    longitudeOfPerihelion := 336.04084, meanLongitude := 355.45332 }

/-- C5: for every valid orbit (at least 64 segments, `e ≤ 0.25`) the minimum
and maximum sampled orbit-path distances equal `a(1-e)` and `a(1+e)` within
1%, at every wall-clock instant; Mars sampled with 256 segments yields
`min ≈ 1.382 AU` and `max ≈ 1.666 AU`. -/
theorem C5_orbit_path_min_max :
    (∀ (oe : OrbitalElements) (env : Env) (segments : ℕ),
      64 ≤ segments → 0 < oe.semiMajorAxis → 0 ≤ oe.eccentricity →
      oe.eccentricity ≤ 1/4 →
      ∃ m Mx : ℝ,
        (sampledDistances oe env segments).minimum = (m : WithTop ℝ) ∧
        (sampledDistances oe env segments).maximum = (Mx : WithBot ℝ) ∧
        |m - oe.semiMajorAxis * (1 - oe.eccentricity)| ≤
          0.01 * (oe.semiMajorAxis * (1 - oe.eccentricity)) ∧
        |Mx - oe.semiMajorAxis * (1 + oe.eccentricity)| ≤
          0.01 * (oe.semiMajorAxis * (1 + oe.eccentricity))) ∧
    (∀ env : Env,
      ∃ m Mx : ℝ,
        (sampledDistances marsElements env 256).minimum = (m : WithTop ℝ) ∧
        (sampledDistances marsElements env 256).maximum = (Mx : WithBot ℝ) ∧
        |m - 1.382| ≤ 0.001 ∧ |Mx - 1.666| ≤ 0.001) := by
  constructor
  · intro oe env segments hseg ha he0 he1
    obtain ⟨m, Mx, hmin, hmax, h1, h2, h3, h4⟩ :=
      sampled_min_max_bounds oe env segments hseg ha he0 he1
    have hsegR : (64:ℝ) ≤ (segments : ℝ) := by exact_mod_cast hseg
    have hsr0 : (0:ℝ) ≤ (360 / (segments : ℝ)) * (Real.pi / 180) := by
      have := Real.pi_pos
      positivity
    have hfrac : (360:ℝ) / (segments : ℝ) ≤ 5.625 := by
      rw [div_le_iff₀ (by linarith : (0:ℝ) < (segments : ℝ))]
      linarith
    have hsr : (360 / (segments : ℝ)) * (Real.pi / 180) ≤ 0.0982 := by
      have hpi := Real.pi_lt_d4
      have hpi0 := Real.pi_pos
      nlinarith
    obtain ⟨hp1, hp2⟩ := sampling_error_below_pct oe.semiMajorAxis oe.eccentricity
      ((360 / (segments : ℝ)) * (Real.pi / 180)) ha he0 he1 hsr0 hsr
    have hlo0 : 0 ≤ oe.semiMajorAxis * (1 - oe.eccentricity) := by nlinarith
    have hhi0 : 0 ≤ oe.semiMajorAxis * (1 + oe.eccentricity) := by nlinarith
    refine ⟨m, Mx, hmin, hmax, abs_le.2 ⟨by nlinarith, by nlinarith⟩,
      abs_le.2 ⟨by nlinarith, by nlinarith⟩⟩
  · intro env
    obtain ⟨m, Mx, hmin, hmax, h1, h2, h3, h4⟩ :=
      sampled_min_max_bounds marsElements env 256 (by norm_num)
        (by norm_num [marsElements]) (by norm_num [marsElements])
        (by norm_num [marsElements])
    simp only [marsElements] at h1 h2 h3 h4
    have hcast : ((256:ℕ) : ℝ) = 256 := by norm_num
    rw [hcast] at h2 h3
    exact ⟨m, Mx, hmin, hmax, mars_min_close m h1 h2, mars_max_close Mx h3 h4⟩

theorem C5_orbit_path_min_max_witness :
    (∃ m Mx : ℝ,
      (sampledDistances marsElements envAtEpoch 256).minimum = (m : WithTop ℝ) ∧
      (sampledDistances marsElements envAtEpoch 256).maximum = (Mx : WithBot ℝ) ∧
      |m - marsElements.semiMajorAxis * (1 - marsElements.eccentricity)| ≤
        0.01 * (marsElements.semiMajorAxis * (1 - marsElements.eccentricity)) ∧
      |Mx - marsElements.semiMajorAxis * (1 + marsElements.eccentricity)| ≤
        0.01 * (marsElements.semiMajorAxis * (1 + marsElements.eccentricity))) ∧
    (∃ m Mx : ℝ,
      (sampledDistances marsElements envAtEpoch 256).minimum = (m : WithTop ℝ) ∧
      (sampledDistances marsElements envAtEpoch 256).maximum = (Mx : WithBot ℝ) ∧
      |m - 1.382| ≤ 0.001 ∧ |Mx - 1.666| ≤ 0.001) :=
  ⟨C5_orbit_path_min_max.1 marsElements envAtEpoch 256 (by norm_num)
      (by norm_num [marsElements]) (by norm_num [marsElements])
      (by norm_num [marsElements]),
    C5_orbit_path_min_max.2 envAtEpoch⟩

-- ### SolarSystemData.js: catalog, scaling profiles and scaled data

/-- A catalog record; the moon lacks `longitudeOfAscendingNode`,
`longitudeOfPerihelion` and `meanLongitude`, so those are optional. -/
structure BodyData where
  radius : ℝ
  mass : ℝ
  rotationPeriod : ℝ
  axialTilt : ℝ
  color : ℕ
  emissiveIntensity : ℝ
  semiMajorAxis : ℝ
  orbitalPeriod : ℝ
  eccentricity : ℝ
  inclination : ℝ
  longitudeOfAscendingNode : Option ℝ
  longitudeOfPerihelion : Option ℝ
  meanLongitude : Option ℝ

/-- A catalog record viewed as orbital elements, when all angles are present. -/
def bodyToElements (b : BodyData) : Option OrbitalElements :=
  match b.longitudeOfAscendingNode, b.longitudeOfPerihelion, b.meanLongitude with
  | some node, some peri, some ml =>
      some { semiMajorAxis := b.semiMajorAxis, orbitalPeriod := b.orbitalPeriod,
             eccentricity := b.eccentricity, inclination := b.inclination,
             longitudeOfAscendingNode := node, longitudeOfPerihelion := peri,
             meanLongitude := ml }
  | _, _, _ => none

/-- The position record produced for a catalog body.  A body lacking some
orbital angles (the moon) makes the source compute with `undefined`, which
floods every derived field with NaN; no claim depends on its
field-level content, so the degenerate record is a single constructor. -/
inductive CurrentPos where
  | valid : HelioPosition → CurrentPos
  | invalidElements : CurrentPos

/-- `calculateCurrentPosition(bodyData)` (always called with `date = null`). -/
def calculateCurrentPosition (b : BodyData) (env : Env) : CurrentPos :=
  match bodyToElements b with
  | some oe => CurrentPos.valid (calculateHeliocentricPosition oe env none)
  | none => CurrentPos.invalidElements

/-- One scaling profile record. -/
structure ScalingConfig where
  distanceScale : ℝ
  baseSizeScale : ℝ
  minPlanetRadius : ℝ
  maxSizeEnhancement : ℝ
  sunSizeScale : ℝ
  sunMinRadius : ℝ

def TRUE_ASTRONOMICAL_SCALING : ScalingConfig :=
  { distanceScale := 1000, baseSizeScale := 1 / 1000000, minPlanetRadius := 0.001,
    maxSizeEnhancement := 1.0, sunSizeScale := 1 / 100000, sunMinRadius := 0.7 }

def EXPLORATION_SCALING : ScalingConfig :=
  { distanceScale := 50, baseSizeScale := 1 / 25000, minPlanetRadius := 0.8,
    maxSizeEnhancement := 5.0, sunSizeScale := 1 / 200000, sunMinRadius := 8.0 }

def ARTISTIC_SCALING : ScalingConfig :=
  { distanceScale := 25, baseSizeScale := 1 / 8000, minPlanetRadius := 2.0,
    maxSizeEnhancement := 12.0, sunSizeScale := 1 / 150000, sunMinRadius := 15.0 }

/-- JavaScript `x || d` for the numeric (non-NaN) values that occur here. -/
def jsOr (x d : ℝ) : ℝ := if x = 0 then d else x

/-- `calculateScaledRadius(originalRadius, bodyName, scaling, mode)`. -/
def calculateScaledRadius (originalRadius : ℝ) (bodyName : String)
    (scaling : ScalingConfig) (mode : String) : ℝ :=
  if bodyName = "sun" then
    max (originalRadius * scaling.sunSizeScale) (jsOr scaling.sunMinRadius 0.1)
  else
    let baseScaledRadius := originalRadius * scaling.baseSizeScale
    if mode = "realistic" then
      max baseScaledRadius (jsOr scaling.minPlanetRadius 0.001)
    else if scaling.minPlanetRadius ≠ 0 ∧ baseScaledRadius < scaling.minPlanetRadius then
      baseScaledRadius * min (jsOr scaling.maxSizeEnhancement 3.0)
        (scaling.minPlanetRadius / baseScaledRadius)
    else baseScaledRadius

/-- `getScalingConfig(mode)` with its `default` fallback. -/
def getScalingConfig (mode : String) : ScalingConfig :=
  if mode = "realistic" then TRUE_ASTRONOMICAL_SCALING
  else if mode = "exploration" then EXPLORATION_SCALING
  else if mode = "artistic" then ARTISTIC_SCALING
  else EXPLORATION_SCALING

/-- `enhanceColor(color)` with idealized integer rounding of `×1.2`. -/
def enhanceColor (color : ℕ) : ℕ :=
  let r := (color / 65536) % 256
  let g := (color / 256) % 256
  let b := color % 256
  (min 255 (r * 12 / 10)) * 65536 + (min 255 (g * 12 / 10)) * 256
    + min 255 (b * 12 / 10)

/-- The value-bearing fields of the object returned by `getScaledData`. -/
structure ScaledData where
  radius : ℝ
  mass : ℝ
  rotationPeriod : ℝ
  axialTilt : ℝ
  color : ℕ
  emissiveIntensity : ℝ
  semiMajorAxis : ℝ
  orbitalPeriod : ℝ
  eccentricity : ℝ
  inclination : ℝ
  currentPosition : CurrentPos

/-- `SOLAR_SYSTEM_DATA` (J2000 elements from the source catalog). -/
def SOLAR_SYSTEM_DATA : List (String × BodyData) :=
  [("sun",
    { radius := 696340, mass := 1.989e30, rotationPeriod := 609.12, axialTilt := 7.25,
      color := 0xffff00, emissiveIntensity := 0.8, semiMajorAxis := 0,
      orbitalPeriod := 0, eccentricity := 0, inclination := 0,
      longitudeOfAscendingNode := some 0, longitudeOfPerihelion := some 0,
      meanLongitude := some 0 }),
   ("mercury",
    { radius := 2439.7, mass := 3.301e23, rotationPeriod := 1407.6, axialTilt := 0.034,
      color := 0x8c7853, emissiveIntensity := 0, semiMajorAxis := 0.387098,
      orbitalPeriod := 87.969, eccentricity := 0.20563, inclination := 7.005,
      longitudeOfAscendingNode := some 48.331, longitudeOfPerihelion := some 77.456,
      meanLongitude := some 252.251 }),
   ("venus",
    { radius := 6051.8, mass := 4.867e24, rotationPeriod := -5832.5, axialTilt := 177.4,
      color := 0xffc649, emissiveIntensity := 0, semiMajorAxis := 0.723332,
      orbitalPeriod := 224.701, eccentricity := 0.006772, inclination := 3.39458,
      longitudeOfAscendingNode := some 76.680, longitudeOfPerihelion := some 131.564,
      meanLongitude := some 181.980 }),
   ("earth",
    { radius := 6371.0, mass := 5.9722e24, rotationPeriod := 23.9345, axialTilt := 23.44,
      color := 0x6b93d6, emissiveIntensity := 0, semiMajorAxis := 1.00000011,
      orbitalPeriod := 365.256, eccentricity := 0.01671022, inclination := 0.00005,
      longitudeOfAscendingNode := some (-11.26064),
      longitudeOfPerihelion := some 102.94719, meanLongitude := some 100.46435 }),
   ("mars",
    { radius := 3389.5, mass := 6.4169e23, rotationPeriod := 24.6229, axialTilt := 25.19,
      color := 0xcd5c5c, emissiveIntensity := 0, semiMajorAxis := 1.52366231,
      orbitalPeriod := 686.980, eccentricity := 0.09341233, inclination := 1.85061,
      longitudeOfAscendingNode := some 49.57854,
      longitudeOfPerihelion := some 336.04084, meanLongitude := some 355.45332 }),
   ("jupiter",
    { radius := 69911, mass := 1.89813e27, rotationPeriod := 9.9250, axialTilt := 3.13,
      color := 0xd8ca9d, emissiveIntensity := 0, semiMajorAxis := 5.20336301,
      orbitalPeriod := 4332.589, eccentricity := 0.04839266, inclination := 1.30530,
      longitudeOfAscendingNode := some 100.55615,
      longitudeOfPerihelion := some 14.75385, meanLongitude := some 34.40438 }),
   ("saturn",
    { radius := 58232, mass := 5.683e26, rotationPeriod := 10.66, axialTilt := 26.73,
      color := 0xfab27b, emissiveIntensity := 0, semiMajorAxis := 9.53707032,
      orbitalPeriod := 10759.22, eccentricity := 0.05415060, inclination := 2.48446,
      longitudeOfAscendingNode := some 113.71504,
      longitudeOfPerihelion := some 92.43194, meanLongitude := some 49.94432 }),
   ("uranus",
    { radius := 25362, mass := 8.681e25, rotationPeriod := -17.24, axialTilt := 97.77,
      color := 0x4fd0e7, emissiveIntensity := 0, semiMajorAxis := 19.19126393,
      orbitalPeriod := 30688.5, eccentricity := 0.04716771, inclination := 0.76986,
      longitudeOfAscendingNode := some 74.22988,
      longitudeOfPerihelion := some 170.96424, meanLongitude := some 313.23218 }),
   ("neptune",
    { radius := 24622, mass := 1.024e26, rotationPeriod := 16.11, axialTilt := 28.32,
      color := 0x4b70dd, emissiveIntensity := 0, semiMajorAxis := 30.06896348,
      orbitalPeriod := 60182, eccentricity := 0.00858587, inclination := 1.76917,
      longitudeOfAscendingNode := some 131.72169,
      longitudeOfPerihelion := some 44.97135, meanLongitude := some 304.88003 })]

/-- `MOONS_DATA`: the moon record omits the three longitude fields. -/
def MOONS_DATA : List (String × BodyData) :=
  [("moon",
    { radius := 1737.4, mass := 7.342e22, rotationPeriod := 655.72, axialTilt := 6.68,
      color := 0xaaaaaa, emissiveIntensity := 0, semiMajorAxis := 384400,
      orbitalPeriod := 27.32166, eccentricity := 0.0549, inclination := 5.145,
      longitudeOfAscendingNode := none, longitudeOfPerihelion := none,
      meanLongitude := none })]

/-- `SOLAR_SYSTEM_DATA[bodyName] || MOONS_DATA[bodyName]`. -/
def lookupBody (name : String) : Option BodyData :=
  match SOLAR_SYSTEM_DATA.lookup name with
  | some d => some d
  | none => MOONS_DATA.lookup name

/-- `getScaledData(bodyName, mode)`. -/
def getScaledData (bodyName : String) (mode : String) (env : Env) : Option ScaledData :=
  match lookupBody bodyName with
  | none => none
  | some data =>
    let currentPos := calculateCurrentPosition data env
    let scaling := getScalingConfig mode
    some
      { radius := calculateScaledRadius data.radius bodyName scaling mode
        mass := data.mass
        rotationPeriod := data.rotationPeriod
        axialTilt := data.axialTilt
        color := if mode = "artistic" then enhanceColor data.color else data.color
        emissiveIntensity := if mode = "artistic" then data.emissiveIntensity * 2.0
          else data.emissiveIntensity
        semiMajorAxis := data.semiMajorAxis * scaling.distanceScale
        orbitalPeriod := data.orbitalPeriod
        eccentricity := data.eccentricity
        inclination := data.inclination
        currentPosition := currentPos }

/-- `getCurrentMeanAnomaly(bodyData)`. -/
def getCurrentMeanAnomaly (b : BodyData) (env : Env) : Option ℝ :=
  match bodyToElements b with
  | some oe => (calculateAstronomicalInfo "temp" oe env none).meanAnomaly
  | none => none

/-- The value-bearing fields of the object returned by `getAstronomicalInfo`. -/
structure AstroInfoPublic where
  name : String
  radius : ℝ
  mass : ℝ
  semiMajorAxis : ℝ
  orbitalPeriod : ℝ
  eccentricity : ℝ
  inclination : ℝ
  rotationPeriod : ℝ
  axialTilt : ℝ
  currentDistanceFromSun : Option ℝ
  currentMeanAnomaly : Option ℝ
  currentPosition : CurrentPos

/-- `getAstronomicalInfo(bodyName)`. -/
def getAstronomicalInfo (bodyName : String) (env : Env) : Option AstroInfoPublic :=
  match lookupBody bodyName with
  | none => none
  | some data =>
    let currentPos := calculateCurrentPosition data env
    some
      { name := bodyName
        radius := data.radius
        mass := data.mass
        semiMajorAxis := data.semiMajorAxis
        orbitalPeriod := data.orbitalPeriod
        eccentricity := data.eccentricity
        inclination := data.inclination
        rotationPeriod := data.rotationPeriod
        axialTilt := data.axialTilt
        currentDistanceFromSun :=
          match currentPos with
          | CurrentPos.valid p => some (Real.sqrt (p.x ^ 2 + p.y ^ 2 + p.z ^ 2))
          | CurrentPos.invalidElements => none
        currentMeanAnomaly := getCurrentMeanAnomaly data env
        currentPosition := currentPos }

/-- The distance computed from two position records; NaN when one
record is the degenerate one. -/
def distanceOfPositions : CurrentPos → CurrentPos → JsNum
  | CurrentPos.valid p1, CurrentPos.valid p2 =>
      JsNum.num (Real.sqrt ((p1.x - p2.x) ^ 2 + (p1.y - p2.y) ^ 2 + (p1.z - p2.z) ^ 2))
  | _, _ => JsNum.nan

/-- `getDistanceBetweenBodies(bodyName1, bodyName2)`; `none` models the
uncaught `TypeError` thrown when a lookup fails (the source dereferences
`undefined`). -/
def getDistanceBetweenBodies (b1 b2 : String) (env : Env) : Option JsNum :=
  match lookupBody b1, lookupBody b2 with
  | some d1, some d2 =>
      some (distanceOfPositions (calculateCurrentPosition d1 env)
        (calculateCurrentPosition d2 env))
  | _, _ => none

-- ### C3: radius scaling versus the enhancement formula of the spec

/-- The radius policy as the spec states it (§4.4): `baseRadius ·
enhancementFactor`, with `enhancementFactor = min(maximumEnhancementFactor,
minimumRadiusFloor / baseRadius)` below the floor and `1` otherwise.  This
definition follows the wording of the spec, for comparison with the `calculateScaledRadius` of the source. -/
def specScaledRadius (physicalRadiusKm : ℝ) (profile : ScalingConfig) : ℝ :=
  let baseRadius := physicalRadiusKm * profile.baseSizeScale
  let enhancementFactor :=
    if baseRadius < profile.minPlanetRadius then
      min profile.maxSizeEnhancement (profile.minPlanetRadius / baseRadius)
    else 1
  baseRadius * enhancementFactor

/-- C3 counterexample: for a 500 km body under the TrueScale profile the
source clamps the radius up to the `0.001` floor, while the formula of the spec
(with `maximumEnhancementFactor = 1`) keeps it at exactly
`radius · baseSizeScaleFactor = 0.0005`. -/
theorem C3_counterexample_truescale_clamp :
    calculateScaledRadius 500 "ceres" TRUE_ASTRONOMICAL_SCALING "realistic"
        = 0.001 ∧
      specScaledRadius 500 TRUE_ASTRONOMICAL_SCALING = 0.0005 ∧
      (0.001 : ℝ) ≠ 0.0005 := by
  refine ⟨?_, ?_, by norm_num⟩
  · unfold calculateScaledRadius
    rw [if_neg (by decide : ¬("ceres" = "sun")), if_pos rfl]
    unfold TRUE_ASTRONOMICAL_SCALING jsOr
    norm_num
  · unfold specScaledRadius TRUE_ASTRONOMICAL_SCALING
    norm_num

/-- C3 amended: for every non-central body, under every mode other than
`realistic` (in particular Exploration and Artistic) with a nonzero floor and
enhancement cap, the source radius equals the claimed
`baseRadius · enhancementFactor` formula; under the TrueScale (`realistic`)
mode the source instead returns `max(baseRadius, minimumRadiusFloor)`, which
equals `physicalRadius · baseSizeScaleFactor` exactly whenever that base value
is at least the floor. -/
theorem C3_scaled_radius_formula :
    (∀ (r : ℝ) (name : String) (scaling : ScalingConfig) (mode : String),
      name ≠ "sun" → mode ≠ "realistic" → scaling.minPlanetRadius ≠ 0 →
      scaling.maxSizeEnhancement ≠ 0 →
      calculateScaledRadius r name scaling mode = specScaledRadius r scaling) ∧
    (∀ (r : ℝ) (name : String) (scaling : ScalingConfig), name ≠ "sun" →
      calculateScaledRadius r name scaling "realistic"
        = max (r * scaling.baseSizeScale) (jsOr scaling.minPlanetRadius 0.001)) ∧
    (∀ (r : ℝ) (name : String), name ≠ "sun" →
      TRUE_ASTRONOMICAL_SCALING.minPlanetRadius ≤
        r * TRUE_ASTRONOMICAL_SCALING.baseSizeScale →
      calculateScaledRadius r name TRUE_ASTRONOMICAL_SCALING "realistic"
        = r * TRUE_ASTRONOMICAL_SCALING.baseSizeScale) := by
  refine ⟨?_, ?_, ?_⟩
  · intro r name scaling mode hname hmode hfloor hmax
    unfold calculateScaledRadius specScaledRadius
    dsimp only
    rw [if_neg hname, if_neg hmode]
    by_cases hb : r * scaling.baseSizeScale < scaling.minPlanetRadius
    · rw [if_pos ⟨hfloor, hb⟩, if_pos hb]
      unfold jsOr
      rw [if_neg hmax]
    · rw [if_neg (by tauto), if_neg hb]
      ring
  · intro r name scaling hname
    unfold calculateScaledRadius
    rw [if_neg hname, if_pos rfl]
  · intro r name hname hfloor
    unfold calculateScaledRadius
    rw [if_neg hname, if_pos rfl]
    unfold TRUE_ASTRONOMICAL_SCALING jsOr at *
    rw [if_neg (by norm_num)]
    exact max_eq_left hfloor

theorem C3_scaled_radius_formula_witness :
    ("mercury" ≠ "sun") ∧ ("exploration" ≠ "realistic") ∧
    (EXPLORATION_SCALING.minPlanetRadius ≠ 0) ∧
    (EXPLORATION_SCALING.maxSizeEnhancement ≠ 0) ∧
    calculateScaledRadius 2439.7 "mercury" EXPLORATION_SCALING "exploration"
      = specScaledRadius 2439.7 EXPLORATION_SCALING :=
  ⟨by decide, by decide, by norm_num [EXPLORATION_SCALING],
    by norm_num [EXPLORATION_SCALING],
    C3_scaled_radius_formula.1 2439.7 "mercury" EXPLORATION_SCALING "exploration"
      (by decide) (by decide) (by norm_num [EXPLORATION_SCALING])
      (by norm_num [EXPLORATION_SCALING])⟩

-- ### C9: unrecognized-mode fallback

theorem calculateScaledRadius_mode_eq (r : ℝ) (name : String) (s : ScalingConfig)
    (mode : String) (h : mode ≠ "realistic") :
    calculateScaledRadius r name s mode = calculateScaledRadius r name s "exploration" := by
  unfold calculateScaledRadius
  by_cases hsun : name = "sun"
  · rw [if_pos hsun, if_pos hsun]
  · rw [if_neg hsun, if_neg hsun, if_neg h,
      if_neg (by decide : ¬("exploration" = "realistic"))]

/-- C9: `getScaledData` with any mode other than `realistic`, `exploration`
and `artistic` returns exactly the result of the `exploration` mode: the
`default` branch of `getScalingConfig` falls back to the exploration profile
and every other mode test in the path also fails. -/
theorem C9_unknown_mode_is_exploration (name mode : String) (env : Env)
    (h1 : mode ≠ "realistic") (h2 : mode ≠ "exploration") (h3 : mode ≠ "artistic") :
    getScaledData name mode env = getScaledData name "exploration" env := by
  have hcfg : getScalingConfig mode = getScalingConfig "exploration" := by
    unfold getScalingConfig
    rw [if_neg h1, if_neg h2, if_neg h3]
    rfl
  unfold getScaledData
  cases hlook : lookupBody name with
  | none => rfl
  | some data =>
    simp only
    rw [hcfg, calculateScaledRadius_mode_eq data.radius name
      (getScalingConfig "exploration") mode h1]
    rw [if_neg h3, if_neg h3,
      if_neg (by decide : ¬("exploration" = "artistic")),
      if_neg (by decide : ¬("exploration" = "artistic"))]

theorem C9_unknown_mode_is_exploration_witness :
    ("cinematic" ≠ "realistic") ∧ ("cinematic" ≠ "exploration") ∧
    ("cinematic" ≠ "artistic") ∧
    getScaledData "earth" "cinematic" envAtEpoch
      = getScaledData "earth" "exploration" envAtEpoch :=
  ⟨by decide, by decide, by decide,
    C9_unknown_mode_is_exploration "earth" "cinematic" envAtEpoch
      (by decide) (by decide) (by decide)⟩

-- ### C8: catalog-lookup failure is the only surfaced error

/-- C8: an unknown body identity makes `getScaledData` and
`getAstronomicalInfo` return the explicit empty result (`null`); for every
cataloged identity each operation produces a value, and
`getDistanceBetweenBodies` returns a value exactly when both lookups succeed
(`none` models its uncaught `TypeError` on an unknown identity). -/
theorem C8_lookup_failure_only_error :
    (∀ (name mode : String) (env : Env), lookupBody name = none →
      getScaledData name mode env = none ∧ getAstronomicalInfo name env = none) ∧
    (∀ (name mode : String) (env : Env) (d : BodyData), lookupBody name = some d →
      (∃ v, getScaledData name mode env = some v) ∧
      (∃ v, getAstronomicalInfo name env = some v)) ∧
    (∀ (b1 b2 : String) (env : Env) (d1 d2 : BodyData),
      lookupBody b1 = some d1 → lookupBody b2 = some d2 →
      ∃ v, getDistanceBetweenBodies b1 b2 env = some v) ∧
    (∀ (b1 b2 : String) (env : Env), lookupBody b1 = none →
      getDistanceBetweenBodies b1 b2 env = none) := by
  refine ⟨?_, ?_, ?_, ?_⟩
  · intro name mode env hnone
    unfold getScaledData getAstronomicalInfo
    rw [hnone]
    exact ⟨rfl, rfl⟩
  · intro name mode env d hsome
    unfold getScaledData getAstronomicalInfo
    rw [hsome]
    exact ⟨⟨_, rfl⟩, ⟨_, rfl⟩⟩
  · intro b1 b2 env d1 d2 h1 h2
    unfold getDistanceBetweenBodies
    rw [h1, h2]
    exact ⟨_, rfl⟩
  · intro b1 b2 env h1
    unfold getDistanceBetweenBodies
    rw [h1]

theorem C8_lookup_failure_only_error_witness :
    lookupBody "pluto" = none ∧
    getScaledData "pluto" "exploration" envAtEpoch = none ∧
    getAstronomicalInfo "pluto" envAtEpoch = none ∧
    (∃ d, lookupBody "earth" = some d) ∧
    (∃ v, getScaledData "earth" "exploration" envAtEpoch = some v) := by
  have hpluto : lookupBody "pluto" = none := rfl
  have hearth : ∃ d, lookupBody "earth" = some d := ⟨_, rfl⟩
  obtain ⟨d, hd⟩ := hearth
  obtain ⟨hs, ha⟩ := C8_lookup_failure_only_error.1 "pluto" "exploration" envAtEpoch hpluto
  obtain ⟨hv, _⟩ := C8_lookup_failure_only_error.2.1 "earth" "exploration" envAtEpoch d hd
  exact ⟨hpluto, hs, ha, ⟨d, hd⟩, hv⟩

-- ### C6: determinism / purity with respect to everything but the clock

theorem getDaysSinceJ2000_clock_only (env1 env2 : Env) (h : env1.nowMs = env2.nowMs)
    (date : Option ℝ) : getDaysSinceJ2000 env1 date = getDaysSinceJ2000 env2 date := by
  unfold getDaysSinceJ2000 getCurrentJulianDate
  cases date <;> simp [h]

theorem heliocentric_clock_only (env1 env2 : Env) (h : env1.nowMs = env2.nowMs)
    (oe : OrbitalElements) (date : Option ℝ) :
    calculateHeliocentricPosition oe env1 date = calculateHeliocentricPosition oe env2 date := by
  have hMA : calculateMeanAnomaly oe env1 date = calculateMeanAnomaly oe env2 date := by
    unfold calculateMeanAnomaly
    rw [getDaysSinceJ2000_clock_only env1 env2 h]
  have hOP : calculateOrbitalPosition oe env1 date = calculateOrbitalPosition oe env2 date := by
    unfold calculateOrbitalPosition
    rw [hMA]
  unfold calculateHeliocentricPosition
  rw [hOP]

/-- C6: the exposed operations are deterministic — `calculateScaledRadius`
and the distance scaling read no ambient state at all, and `getScaledData` /
`calculateHeliocentricPosition` depend on the environment only through the
clock reading: two environments with equal `Date.now()` values (regardless of
any other ambient state such as the console sink) yield identical results, so
repeated calls with identical inputs and clock reading are safe to cache. -/
theorem C6_operations_deterministic (env1 env2 : Env) (h : env1.nowMs = env2.nowMs) :
    (∀ (name mode : String), getScaledData name mode env1 = getScaledData name mode env2) ∧
    (∀ (oe : OrbitalElements) (date : Option ℝ),
      calculateHeliocentricPosition oe env1 date
        = calculateHeliocentricPosition oe env2 date) ∧
    (∀ name : String, getAstronomicalInfo name env1 = getAstronomicalInfo name env2) := by
  have hCP : ∀ b : BodyData, calculateCurrentPosition b env1 = calculateCurrentPosition b env2 := by
    intro b
    unfold calculateCurrentPosition
    cases bodyToElements b with
    | none => rfl
    | some oe => simp only [heliocentric_clock_only env1 env2 h oe none]
  refine ⟨?_, heliocentric_clock_only env1 env2 h, ?_⟩
  · intro name mode
    unfold getScaledData
    cases lookupBody name with
    | none => rfl
    | some data => simp only [hCP data]
  · intro name
    unfold getAstronomicalInfo getCurrentMeanAnomaly
    cases lookupBody name with
    | none => rfl
    | some data =>
      simp only [hCP data]
      cases hb : bodyToElements data with
      | none => rfl
      | some oe =>
        simp only
        unfold calculateAstronomicalInfo
        rw [heliocentric_clock_only env1 env2 h oe none]

theorem C6_operations_deterministic_witness :
    Env.nowMs { nowMs := 946728000000, consoleLines := [] }
        = Env.nowMs { nowMs := 946728000000, consoleLines := ["render pass 1"] } ∧
    getScaledData "earth" "exploration" { nowMs := 946728000000, consoleLines := [] }
      = getScaledData "earth" "exploration"
          { nowMs := 946728000000, consoleLines := ["render pass 1"] } :=
  ⟨rfl,
    (C6_operations_deterministic { nowMs := 946728000000, consoleLines := [] }
      { nowMs := 946728000000, consoleLines := ["render pass 1"] } rfl).1
      "earth" "exploration"⟩
